import Mathlib

/-!
# QGraphicsMozView: the Qt adapter around one EmbedLite engine view

A shallow embedding of `src/qgraphicsmozview.cpp`.  Every call the adapter
makes on an external collaborator (the engine application, the engine view,
the Qt item machinery) is appended to a trace, so that what the engine
receives, and in which order, can be stated.  A call through a null view
pointer is a fault.
-/

namespace QtMozEmbed

/-! ## Qt and engine value types -/

/-- One UTF-16 code unit of a Qt string; `unicode` is `QChar::unicode()`. -/
structure QChar where
  unicode : Nat
deriving DecidableEq, Repr

/-- Qt strings are sequences of UTF-16 code units. -/
abbrev QString := List QChar

/-- The NUL-terminated byte string obtained by `toUtf8().data()`. -/
abbrev CString := List Nat

/-- A `QUrl`, seen through the two observers the adapter calls on it. -/
structure QUrl where
  isEmpty : Bool
  toString : QString
deriving DecidableEq, Repr

/-- The payload of an asynchronous message. -/
inductive QVariant where
  | invalid
  | bool (b : Bool)
  | int (i : Int)
  | string (s : QString)
deriving DecidableEq, Repr

/-- Qt's `qreal`, for the coordinates of a position; the rationals contain
every finite floating-point value, and a position has finite coordinates. -/
abbrev qreal := ℚ

/-- A `QPointF`: a point with `qreal` coordinates. -/
structure QPointF where
  x : qreal
  y : qreal
deriving DecidableEq

/-- The engine's integer point. -/
structure nsIntPoint where
  x : Int
  y : Int
deriving DecidableEq, Repr

/-- The least value of a 32-bit `int`. -/
def INT_MIN : Int := -2147483648

/-- The greatest value of a 32-bit `int`. -/
def INT_MAX : Int := 2147483647

/-- The C++ conversion of a `qreal` to the 32-bit `int` of `nsIntPoint`:
truncation toward zero when the truncated value fits an `int`.  When it does
not fit, C++ leaves the result undefined; the value taken is the one the x86
conversion instruction delivers, `INT_MIN`. -/
def qrealToInt (q : qreal) : Int :=
  let t := Int.tdiv q.num q.den
  if INT_MIN ≤ t ∧ t ≤ INT_MAX then t else INT_MIN

/-- The expression `nsIntPoint(p.x(), p.y())` for a `QPointF` p. -/
def nsIntPoint.ofQPointF (p : QPointF) : nsIntPoint :=
  ⟨qrealToInt p.x, qrealToInt p.y⟩

/-- The kinds of `MultiTouchInput` the adapter builds. -/
inductive MultiTouchType where
  | MULTITOUCH_START
  | MULTITOUCH_MOVE
  | MULTITOUCH_END
deriving DecidableEq, Repr

/-- One contact point of a multi-touch event. -/
structure SingleTouchData where
  mIdentifier : Int
  mScreenPoint : nsIntPoint
  mRadius : nsIntPoint
  mRotationAngle : ℚ
  mForce : ℚ
deriving DecidableEq

/-- The engine's multi-touch input event. -/
structure MultiTouchInput where
  mType : MultiTouchType
  mTime : Nat
  mTouches : List SingleTouchData
deriving DecidableEq

/-- A non-null pointer to an engine view. -/
structure EmbedLiteView where
  id : Nat
deriving DecidableEq, Repr

/-- The argument of `EmbedLiteView::SetListener`: the adapter's private
object `d`, or `NULL`. -/
inductive Listener where
  | d
  | NULL
deriving DecidableEq, Repr

/-- The enumeration `Qt::FocusReason`, as far as the adapter uses it. -/
inductive FocusReason where
  | OtherFocusReason
deriving DecidableEq, Repr

/-! ## Calls on external collaborators -/

/-- Methods of `EmbedLiteView` the adapter invokes. -/
inductive ViewCall where
  | SetListener (l : Listener)
  | LoadURL (url : CString)
  | LoadFrameScript (uri : CString)
  | AddMessageListener (name : CString)
  | SendAsyncMessage (name : QString) (json : QString)
  | GoBack
  | GoForward
  | StopLoad
  | Reload (hard : Bool)
  | SetIsActive (active : Bool)
  | ResumeTimeouts
  | SuspendTimeouts
  | ReceiveInputEvent (event : MultiTouchInput)
  | SendTextEvent (commit : CString) (preedit : CString)
  | SendKeyPress (domKeyCode : Int) (gmodifiers : Int) (charCode : Int)
  | SendKeyRelease (domKeyCode : Int) (gmodifiers : Int) (charCode : Int)
deriving DecidableEq

/-- Methods of `EmbedLiteApp` the adapter invokes. -/
inductive AppCall where
  | CreateView (parentID : Nat)
  | DestroyView (view : Option EmbedLiteView)
deriving DecidableEq

/-- Calls into the Qt item machinery: `setFocus` on the item with the given
identity, and the base-class handler `QGraphicsItem::mouseMoveEvent`. -/
inductive HostCall where
  | setFocus (item : Nat) (reason : FocusReason)
  | QGraphicsItem_mouseMoveEvent
deriving DecidableEq

/-- One entry of the trace. -/
inductive Call where
  | app (c : AppCall)
  | view (v : EmbedLiteView) (c : ViewCall)
  | host (c : HostCall)
deriving DecidableEq

/-- Whether a call goes to the engine (application or view). -/
def Call.isEngine : Call → Bool
  | .app _ => true
  | .view _ _ => true
  | .host _ => false

/-- The engine calls of a trace, in order. -/
def engineCalls (t : List Call) : List Call := t.filter Call.isEngine

/-! ## Events delivered by Qt -/

/-- A `QGraphicsSceneMouseEvent`: position in item coordinates and the
accepted flag. -/
structure QGraphicsSceneMouseEvent where
  pos : QPointF
  accepted : Bool
deriving DecidableEq

/-- A `QKeyEvent`: Qt key code, keyboard modifier flags and text. -/
structure QKeyEvent where
  key : Int
  modifiers : Nat
  text : QString
deriving DecidableEq, Repr

/-- A `QInputMethodEvent`: commit and pre-edit strings. -/
structure QInputMethodEvent where
  commitString : QString
  preeditString : QString
deriving DecidableEq, Repr

/-- An ancestor in the parent chain of the widget: its identity and whether
`flags() & QGraphicsItem::ItemIsFocusScope` is non-zero. -/
structure QGraphicsItem where
  id : Nat
  ItemIsFocusScope : Bool
deriving DecidableEq, Repr

/-- A `QTime` used as a stopwatch: the clock reading, in milliseconds since
midnight, taken when it was last restarted. -/
structure QTime where
  ms : Nat
deriving DecidableEq, Repr

/-- The number of milliseconds in a day. -/
def MSECS_PER_DAY : Nat := 86400 * 1000

/-- The method `QTime::restart()` at clock reading `now`. -/
def QTime.restart (_t : QTime) (now : Nat) : QTime := ⟨now⟩

/-- The method `QTime::elapsed()` at clock reading `now`: the milliseconds since the
last restart, a day being added when the reading has passed midnight. -/
def QTime.elapsed (t : QTime) (now : Nat) : Nat :=
  if now < t.ms then now + MSECS_PER_DAY - t.ms else now - t.ms

/-! ## What the adapter takes from outside this file -/

/-- Functions of Qt, of the engine and of `EmbedQtKeyUtils.h` that the
adapter calls and whose results it passes on, and the build flag
`Q_WS_MAEMO_5`.  `CreateView` may answer differently at each call, so it sees
the trace so far; the pointer it returns is dereferenced unchecked by the
adapter and is taken to be non-null. -/
structure Externals where
  fromUserInput : QString → QUrl
  toUtf8 : QString → CString
  serialize : QVariant → QString
  isPrint : QChar → Bool
  QtModifierToDOMModifier : Nat → Int
  QtKeyCodeToDOMKeyCode : Int → Nat → Int
  CreateView : List Call → Nat → EmbedLiteView
  QGraphicsItem_mouseMoveEvent : QGraphicsSceneMouseEvent → QGraphicsSceneMouseEvent
  Q_WS_MAEMO_5 : Bool

/-! ## Adapter state -/

/-- The fields of `QGraphicsMozViewPrivate` that lifecycle, navigation and
input handling read or write. -/
structure QGraphicsMozViewPrivate where
  mView : Option EmbedLiteView
  mViewInitialized : Bool
  mPendingTouchEvent : Bool
  mPanningTime : QTime
deriving DecidableEq

/-- The adapter: its private object `d`, `mParentID`, its place in the item
tree (own identity, ancestors from the nearest to the root), and the trace of
the calls made so far. -/
structure QGraphicsMozView where
  d : QGraphicsMozViewPrivate
  mParentID : Nat
  id : Nat
  ancestors : List QGraphicsItem
  trace : List Call
deriving DecidableEq

/-- What goes wrong when a method is invoked through a null view pointer. -/
inductive Fault where
  | nullDereference
deriving DecidableEq, Repr

/-- Append one call to the trace. -/
def emit (c : Call) (s : QGraphicsMozView) : QGraphicsMozView :=
  { s with trace := s.trace ++ [c] }

/-- The expression `d->mView->c(...)`: a fault when `mView` is null. -/
def callView (c : ViewCall) (s : QGraphicsMozView) : Except Fault QGraphicsMozView :=
  match s.d.mView with
  | some v => .ok (emit (.view v c) s)
  | none => .error .nullDereference

/-- Modelled from the spec: the state in which the constructor of
`QGraphicsMozViewPrivate`, which is not in `src/`, leaves the private object.
The view handle is created on first activation, the initialized flag is set
by the engine's init callback and the touch latch by a touch-begin, so a new
adapter has no handle and both flags clear; `mParentID` is set to 0 by the
constructor of `QGraphicsMozView` itself. -/
def QGraphicsMozView.new (id : Nat) (ancestors : List QGraphicsItem) : QGraphicsMozView :=
  { d := { mView := none, mViewInitialized := false, mPendingTouchEvent := false,
           mPanningTime := ⟨0⟩ },
    mParentID := 0, id := id, ancestors := ancestors, trace := [] }

/-! ## View lifecycle -/

/-- The method `QGraphicsMozView::onInitialized`. -/
def onInitialized (ext : Externals) (s : QGraphicsMozView) : Except Fault QGraphicsMozView :=
  match s.d.mView with
  | none =>
    let v := ext.CreateView s.trace s.mParentID
    let s1 := emit (.app (.CreateView s.mParentID)) s
    let s2 := { s1 with d := { s1.d with mView := some v } }
    callView (.SetListener .d) s2
  | some _ => .ok s

/-- The method `QGraphicsMozView::setParentID`; the argument is converted to
`unsigned`. -/
def setParentID (ext : Externals) (aParentID : Nat) (s : QGraphicsMozView) :
    Except Fault QGraphicsMozView :=
  let s1 := { s with mParentID := aParentID % 2 ^ 32 }
  if s1.mParentID ≠ 0 then onInitialized ext s1 else .ok s1

/-! ## Navigation -/

/-- The method `QGraphicsMozView::setUrl`. -/
def setUrl (ext : Externals) (url : QUrl) (s : QGraphicsMozView) : Except Fault QGraphicsMozView :=
  if url.isEmpty then .ok s
  else if !s.d.mViewInitialized then .ok s
  else callView (.LoadURL (ext.toUtf8 url.toString)) s

/-- The method `QGraphicsMozView::load`. -/
def load (ext : Externals) (url : QString) (s : QGraphicsMozView) : Except Fault QGraphicsMozView :=
  if url.isEmpty then .ok s
  else if !s.d.mViewInitialized then .ok s
  else callView (.LoadURL (ext.toUtf8 (ext.fromUserInput url).toString)) s

/-- The method `QGraphicsMozView::loadFrameScript`. -/
def loadFrameScript (ext : Externals) (name : QString) (s : QGraphicsMozView) :
    Except Fault QGraphicsMozView :=
  callView (.LoadFrameScript (ext.toUtf8 name)) s

/-- The method `QGraphicsMozView::addMessageListener`. -/
def addMessageListener (ext : Externals) (name : QString) (s : QGraphicsMozView) :
    Except Fault QGraphicsMozView :=
  callView (.AddMessageListener (ext.toUtf8 name)) s

/-- The method `QGraphicsMozView::sendAsyncMessage`; the payload is serialized to JSON
text by Qt and handed over as UTF-16. -/
def sendAsyncMessage (ext : Externals) (name : QString) (variant : QVariant)
    (s : QGraphicsMozView) : Except Fault QGraphicsMozView :=
  if !s.d.mViewInitialized then .ok s
  else callView (.SendAsyncMessage name (ext.serialize variant)) s

/-- The method `QGraphicsMozView::goBack`. -/
def goBack (s : QGraphicsMozView) : Except Fault QGraphicsMozView :=
  if !s.d.mViewInitialized then .ok s else callView .GoBack s

/-- The method `QGraphicsMozView::goForward`. -/
def goForward (s : QGraphicsMozView) : Except Fault QGraphicsMozView :=
  if !s.d.mViewInitialized then .ok s else callView .GoForward s

/-- The method `QGraphicsMozView::stop`. -/
def stop (s : QGraphicsMozView) : Except Fault QGraphicsMozView :=
  if !s.d.mViewInitialized then .ok s else callView .StopLoad s

/-- The method `QGraphicsMozView::reload`. -/
def reload (s : QGraphicsMozView) : Except Fault QGraphicsMozView :=
  if !s.d.mViewInitialized then .ok s else callView (.Reload false) s

/-! ## Focus -/

/-- The `while (parent)` loop of `forceActiveFocus`, over the ancestors that
remain to be visited. -/
def forceActiveFocus.loop : List QGraphicsItem → QGraphicsMozView → QGraphicsMozView
  | [], s => s
  | parent :: rest, s =>
    forceActiveFocus.loop rest
      (if parent.ItemIsFocusScope then
        emit (.host (.setFocus parent.id .OtherFocusReason)) s
      else s)

/-- The method `QGraphicsMozView::forceActiveFocus`. -/
def forceActiveFocus (s : QGraphicsMozView) : Except Fault QGraphicsMozView :=
  let s1 := forceActiveFocus.loop s.ancestors s
  let s2 := emit (.host (.setFocus s.id .OtherFocusReason)) s1
  if s2.d.mViewInitialized then callView (.SetIsActive true) s2 else .ok s2

/-! ## Pointer input -/

/-- Modelled from the spec: `QGraphicsMozViewPrivate::ReceiveInputEvent`,
whose body is not in `src/`.  Input is handed to the engine view only when
the view is initialized. -/
def ReceiveInputEvent (event : MultiTouchInput) (s : QGraphicsMozView) :
    Except Fault QGraphicsMozView :=
  if s.d.mViewInitialized then callView (.ReceiveInputEvent event) s else .ok s

/-- The block `if (d->mViewInitialized && !d->mPendingTouchEvent) { ... }`
that opens each mouse handler, for the event kind `type` and the clock
reading `now` at which `mPanningTime.elapsed()` is taken. -/
def singleTouch (type : MultiTouchType) (now : Nat) (e : QGraphicsSceneMouseEvent)
    (s : QGraphicsMozView) : Except Fault (QGraphicsMozView × QGraphicsSceneMouseEvent) :=
  if s.d.mViewInitialized && !s.d.mPendingTouchEvent then do
    let accepted := e.accepted
    let event : MultiTouchInput :=
      { mType := type, mTime := s.d.mPanningTime.elapsed now,
        mTouches := [{ mIdentifier := 0, mScreenPoint := nsIntPoint.ofQPointF e.pos,
                       mRadius := ⟨1, 1⟩, mRotationAngle := 180, mForce := 1 }] }
    let s1 ← ReceiveInputEvent event s
    pure (s1, { e with accepted := accepted })
  else pure (s, e)

/-- The tail `if (!e->isAccepted()) QGraphicsItem::mouseMoveEvent(e);` that
closes each mouse handler. -/
def passToItem (ext : Externals) (r : QGraphicsMozView × QGraphicsSceneMouseEvent) :
    QGraphicsMozView × QGraphicsSceneMouseEvent :=
  if !r.2.accepted then
    (emit (.host .QGraphicsItem_mouseMoveEvent) r.1, ext.QGraphicsItem_mouseMoveEvent r.2)
  else r

/-- The method `QGraphicsMozView::mouseMoveEvent`, at clock reading `now`. -/
def mouseMoveEvent (ext : Externals) (now : Nat) (e : QGraphicsSceneMouseEvent)
    (s : QGraphicsMozView) : Except Fault (QGraphicsMozView × QGraphicsSceneMouseEvent) := do
  let r ← singleTouch .MULTITOUCH_MOVE now e s
  pure (passToItem ext r)

/-- The method `QGraphicsMozView::mousePressEvent`; the clock reads `tRestart` when
`mPanningTime` is restarted and `now` when the elapsed time is taken. -/
def mousePressEvent (ext : Externals) (tRestart now : Nat) (e : QGraphicsSceneMouseEvent)
    (s : QGraphicsMozView) : Except Fault (QGraphicsMozView × QGraphicsSceneMouseEvent) := do
  let s1 := { s with d := { s.d with mPanningTime := s.d.mPanningTime.restart tRestart } }
  let s2 ← forceActiveFocus s1
  let r ← singleTouch .MULTITOUCH_START now e s2
  pure (passToItem ext r)

/-- The method `QGraphicsMozView::mouseReleaseEvent`, at clock reading `now`. -/
def mouseReleaseEvent (ext : Externals) (now : Nat) (e : QGraphicsSceneMouseEvent)
    (s : QGraphicsMozView) : Except Fault (QGraphicsMozView × QGraphicsSceneMouseEvent) := do
  let r ← singleTouch .MULTITOUCH_END now e s
  let s1 := r.1
  let s2 := if s1.d.mPendingTouchEvent then
      { s1 with d := { s1.d with mPendingTouchEvent := false } }
    else s1
  pure (passToItem ext (s2, r.2))

/-! ## Keyboard and input-method input -/

/-- The method `QGraphicsMozView::inputMethodEvent`. -/
def inputMethodEvent (ext : Externals) (event : QInputMethodEvent) (s : QGraphicsMozView) :
    Except Fault QGraphicsMozView :=
  if s.d.mViewInitialized then
    callView (.SendTextEvent (ext.toUtf8 event.commitString) (ext.toUtf8 event.preeditString)) s
  else .ok s

/-- The test `text.length() && text[0].isPrint()` of the key handlers: the
first character of the text when there is one and it is printable. -/
def printableChar (ext : Externals) (text : QString) : Option QChar :=
  match text with
  | [] => none
  | c :: _ => if ext.isPrint c then some c else none

/-- The method `QGraphicsMozView::keyPressEvent`; `USE_TEXT_EVENTS` tells whether
`getenv("USE_TEXT_EVENTS")` is non-null when the handler runs. -/
def keyPressEvent (ext : Externals) (USE_TEXT_EVENTS : Bool) (event : QKeyEvent)
    (s : QGraphicsMozView) : Except Fault QGraphicsMozView :=
  if !s.d.mViewInitialized then .ok s
  else
    let gmodifiers := ext.QtModifierToDOMModifier event.modifiers
    let domKeyCode := ext.QtKeyCodeToDOMKeyCode event.key event.modifiers
    let send (charCode : Int) : Except Fault QGraphicsMozView :=
      if !ext.Q_WS_MAEMO_5 then callView (.SendKeyPress domKeyCode gmodifiers charCode) s
      else .ok s
    match printableChar ext event.text with
    | some c => if USE_TEXT_EVENTS then .ok s else send (c.unicode : Int)
    | none => send 0

/-- The method `QGraphicsMozView::keyReleaseEvent`; `USE_TEXT_EVENTS` as for
`keyPressEvent`. -/
def keyReleaseEvent (ext : Externals) (USE_TEXT_EVENTS : Bool) (event : QKeyEvent)
    (s : QGraphicsMozView) : Except Fault QGraphicsMozView :=
  if !s.d.mViewInitialized then .ok s
  else
    let gmodifiers := ext.QtModifierToDOMModifier event.modifiers
    let domKeyCode := ext.QtKeyCodeToDOMKeyCode event.key event.modifiers
    let send (charCode : Int) : Except Fault QGraphicsMozView := do
      let s1 ← if ext.Q_WS_MAEMO_5 then callView (.SendKeyPress domKeyCode gmodifiers charCode) s
        else pure s
      callView (.SendKeyRelease domKeyCode gmodifiers charCode) s1
    match printableChar ext event.text with
    | some c =>
      if USE_TEXT_EVENTS then callView (.SendTextEvent (ext.toUtf8 event.text) []) s
      else send (c.unicode : Int)
    | none => send 0

/-! ## Entry points as data, and observations on traces -/

/-- The navigation and input entry points, each with its arguments (and, for
the handlers that read the clock or the environment, what they read). -/
inductive Entry where
  | load (url : QString)
  | setUrl (url : QUrl)
  | stop
  | reload
  | goBack
  | goForward
  | sendAsyncMessage (name : QString) (variant : QVariant)
  | mousePressEvent (tRestart now : Nat) (e : QGraphicsSceneMouseEvent)
  | mouseMoveEvent (now : Nat) (e : QGraphicsSceneMouseEvent)
  | mouseReleaseEvent (now : Nat) (e : QGraphicsSceneMouseEvent)
  | keyPressEvent (USE_TEXT_EVENTS : Bool) (event : QKeyEvent)
  | keyReleaseEvent (USE_TEXT_EVENTS : Bool) (event : QKeyEvent)
  | inputMethodEvent (event : QInputMethodEvent)

/-- Invoke an entry point on the adapter. -/
def Entry.run (ext : Externals) : Entry → QGraphicsMozView → Except Fault QGraphicsMozView
  | .load url, s => QtMozEmbed.load ext url s
  | .setUrl url, s => QtMozEmbed.setUrl ext url s
  | .stop, s => QtMozEmbed.stop s
  | .reload, s => QtMozEmbed.reload s
  | .goBack, s => QtMozEmbed.goBack s
  | .goForward, s => QtMozEmbed.goForward s
  | .sendAsyncMessage name variant, s => QtMozEmbed.sendAsyncMessage ext name variant s
  | .mousePressEvent tRestart now e, s => (QtMozEmbed.mousePressEvent ext tRestart now e s).map Prod.fst
  | .mouseMoveEvent now e, s => (QtMozEmbed.mouseMoveEvent ext now e s).map Prod.fst
  | .mouseReleaseEvent now e, s => (QtMozEmbed.mouseReleaseEvent ext now e s).map Prod.fst
  | .keyPressEvent env event, s => QtMozEmbed.keyPressEvent ext env event s
  | .keyReleaseEvent env event, s => QtMozEmbed.keyReleaseEvent ext env event s
  | .inputMethodEvent event, s => QtMozEmbed.inputMethodEvent ext event s

/-- Run the steps of a list one after the other, stopping at a fault. -/
def runAll {α : Type} (step : α → QGraphicsMozView → Except Fault QGraphicsMozView) :
    List α → QGraphicsMozView → Except Fault QGraphicsMozView
  | [], s => .ok s
  | a :: rest, s =>
    match step a s with
    | .ok s1 => runAll step rest s1
    | .error f => .error f

/-- The two activation calls. -/
inductive Activation where
  | setParentID (aParentID : Nat)
  | onInitialized

/-- Perform one activation call. -/
def Activation.run (ext : Externals) : Activation → QGraphicsMozView →
    Except Fault QGraphicsMozView
  | .setParentID n, s => QtMozEmbed.setParentID ext n s
  | .onInitialized, s => QtMozEmbed.onInitialized ext s

/-- Whether a call is `EmbedLiteApp::CreateView`. -/
def Call.isCreateView : Call → Bool
  | .app (.CreateView _) => true
  | _ => false

/-- The multi-touch events handed to the engine view, in order. -/
def touchEvents (t : List Call) : List MultiTouchInput :=
  t.filterMap fun c =>
    match c with
    | .view _ (.ReceiveInputEvent ev) => some ev
    | _ => none

/-- The focus grants of a trace, in order: the identity of each item on which
`setFocus` was called, with the reason passed. -/
def focusGrants (t : List Call) : List (Nat × FocusReason) :=
  t.filterMap fun c =>
    match c with
    | .host (.setFocus item reason) => some (item, reason)
    | _ => none

/-- Whether a call is a discrete key signal. -/
def Call.isKeySignal : Call → Bool
  | .view _ (.SendKeyPress _ _ _) => true
  | .view _ (.SendKeyRelease _ _ _) => true
  | _ => false

/-- Whether a call is a composed-text signal. -/
def Call.isTextSignal : Call → Bool
  | .view _ (.SendTextEvent _ _) => true
  | _ => false

/-- The state invariant of the adapter: the initialized flag is only set
while a view handle is present. -/
def HandlePresentWhenInitialized (s : QGraphicsMozView) : Prop :=
  s.d.mViewInitialized = true → s.d.mView.isSome = true

instance (s : QGraphicsMozView) : Decidable (HandlePresentWhenInitialized s) := by
  unfold HandlePresentWhenInitialized; infer_instance

/-- A sample of the external functions, for evaluating the handlers on
concrete inputs: URLs and texts are passed through unchanged, code units 32
to 126 are printable, key codes and modifiers map to themselves, views are
numbered by the length of the trace, and the base-class mouse handler ignores
the event. -/
def sampleExternals : Externals :=
  { fromUserInput := fun url => ⟨url.isEmpty, url⟩,
    toUtf8 := fun text => text.map QChar.unicode,
    serialize := fun _ => [],
    isPrint := fun c => decide (32 ≤ c.unicode) && decide (c.unicode < 127),
    QtModifierToDOMModifier := fun m => (m : Int),
    QtKeyCodeToDOMKeyCode := fun k _ => k,
    CreateView := fun t _ => ⟨t.length + 1⟩,
    QGraphicsItem_mouseMoveEvent := fun e => { e with accepted := false },
    Q_WS_MAEMO_5 := false }

/-- A sample adapter whose view has been created and initialized. -/
def sampleInitialized : QGraphicsMozView :=
  { d := { mView := some ⟨1⟩, mViewInitialized := true, mPendingTouchEvent := false,
           mPanningTime := ⟨0⟩ },
    mParentID := 5, id := 0, ancestors := [],
    trace := [.app (.CreateView 5), .view ⟨1⟩ (.SetListener .d)] }

/-- A sample adapter whose view has been created but has not yet been
reported initialized by the engine. -/
def sampleCreated : QGraphicsMozView :=
  { sampleInitialized with
    d := { sampleInitialized.d with mViewInitialized := false } }

/-- The number of `CreateView` calls in a trace. -/
def createViewCount (t : List Call) : Nat := t.countP Call.isCreateView

/-- What activation maintains: without a handle no view has been created,
with a handle at most one has. -/
def CreatedAtMostOnce (s : QGraphicsMozView) : Prop :=
  (s.d.mView = none ∧ createViewCount s.trace = 0) ∨
  (s.d.mView.isSome = true ∧ createViewCount s.trace ≤ 1)

/-- The single-point event the pointer claims describe: kind `type`,
timestamp `time`, and one touch point with identifier 0 at `point`, radius
(1, 1), orientation 180 and pressure 1. -/
def expectedTouch (type : MultiTouchType) (time : Nat) (point : nsIntPoint) : MultiTouchInput :=
  { mType := type, mTime := time,
    mTouches := [{ mIdentifier := 0, mScreenPoint := point, mRadius := ⟨1, 1⟩,
                   mRotationAngle := 180, mForce := 1 }] }

/-- A mouse press or a mouse move, with the clock readings of the handler. -/
inductive PressOrMove where
  | press (tRestart now : Nat) (e : QGraphicsSceneMouseEvent)
  | move (now : Nat) (e : QGraphicsSceneMouseEvent)

/-- Deliver a mouse press or a mouse move to the adapter. -/
def PressOrMove.run (ext : Externals) : PressOrMove → QGraphicsMozView →
    Except Fault QGraphicsMozView
  | .press tRestart now e, s => (mousePressEvent ext tRestart now e s).map Prod.fst
  | .move now e, s => (mouseMoveEvent ext now e s).map Prod.fst

/-- One keystroke: the press and then the release of the same key event, the
environment toggle being read once by each handler. -/
def keystroke (ext : Externals) (atPress atRelease : Bool) (event : QKeyEvent)
    (s : QGraphicsMozView) : Except Fault QGraphicsMozView := do
  let s1 ← keyPressEvent ext atPress event s
  keyReleaseEvent ext atRelease event s1

/-- Whether a list of calls holds both a discrete key signal and a
composed-text signal. -/
def deliversBoth (calls : List Call) : Bool :=
  calls.any Call.isKeySignal && calls.any Call.isTextSignal

/-- The sample initialized adapter after a native touch-begin has set the
touch latch. -/
def sampleTouching : QGraphicsMozView :=
  { sampleInitialized with
    d := { sampleInitialized.d with mPendingTouchEvent := true } }

/-- A key event for the letter a: Qt key code 65, no modifiers, text "a". -/
def sampleKeyA : QKeyEvent := { key := 65, modifiers := 0, text := [⟨97⟩] }

/-- The character code the key handlers pass on: the code unit of the first
character of the text when that character is printable, 0 otherwise. -/
def charCodeOf (ext : Externals) (text : QString) : Int :=
  match printableChar ext text with
  | some c => (c.unicode : Int)
  | none => 0

/-- A mouse press followed by a mouse release, with the clock readings of
the two handlers. -/
def pressThenRelease (ext : Externals) (tRestart tPress tRelease : Nat)
    (ePress eRelease : QGraphicsSceneMouseEvent) (s : QGraphicsMozView) :
    Except Fault QGraphicsMozView := do
  let r ← mousePressEvent ext tRestart tPress ePress s
  let r' ← mouseReleaseEvent ext tRelease eRelease r.1
  pure r'.1

/-- The method `QGraphicsMozView::onDisplayEntered`. -/
def onDisplayEntered (s : QGraphicsMozView) : Except Fault QGraphicsMozView :=
  match s.d.mView with
  | none => .ok s
  | some _ => do
    let s1 ← callView (.SetIsActive true) s
    callView .ResumeTimeouts s1

/-- One step of the destructor: a call on an external collaborator, or the
release of the private object by `delete d`. -/
inductive TeardownStep where
  | call (c : Call)
  | delete_d
deriving DecidableEq

/-- The destructor `QGraphicsMozView::~QGraphicsMozView`: the steps it
performs, in order.  `DestroyView` receives `d->mView` as it is, null or not;
the engine is taken not to change the adapter's fields while it handles the
request. -/
def QGraphicsMozView.destructor (s : QGraphicsMozView) : List TeardownStep :=
  let destroy := TeardownStep.call (.app (.DestroyView s.d.mView))
  let clear :=
    match s.d.mView with
    | some v => [TeardownStep.call (.view v (.SetListener .NULL))]
    | none => []
  destroy :: clear ++ [TeardownStep.delete_d]

/-- Whether a teardown step is a `DestroyView` request. -/
def TeardownStep.isDestroyView : TeardownStep → Bool
  | .call (.app (.DestroyView _)) => true
  | _ => false

/-- Whether a teardown step invokes a method on a view handle. -/
def TeardownStep.isViewCall : TeardownStep → Bool
  | .call (.view _ _) => true
  | _ => false

/-- The integer coordinate the pointer claims, as amended, give for the
coordinate `q` of a mouse position: `q` with its fractional part dropped
(rounded toward zero) when that integer can be held by a 32-bit `int`, and
-2147483648 otherwise. -/
def truncatedCoordinate (q : ℚ) : Int :=
  let t : Int := if 0 ≤ q then ⌊q⌋ else ⌈q⌉
  if -2147483648 ≤ t ∧ t ≤ 2147483647 then t else -2147483648

/-- The milliseconds from the clock reading `start` to the later reading
`now`, both in milliseconds since midnight: their difference, with the
86400000 milliseconds of a day added when midnight was passed in between. -/
def millisecondsBetween (start now : Nat) : Nat :=
  if now < start then now + 86400000 - start else now - start

/-- Three clock readings, each a millisecond of the day, taken in this order
within one day: the clock did not go backwards, though midnight may have been
passed once between two of them. -/
def ReadInOrder (a b c : Nat) : Prop :=
  a < 86400000 ∧ b < 86400000 ∧ c < 86400000 ∧
  ((a ≤ b ∧ b ≤ c) ∨ (b ≤ c ∧ c < a) ∨ (c < a ∧ a ≤ b))

/-- A key event for the Return key: Qt key code 0x01000004, no modifiers,
text "\r" (code unit 13, not printable). -/
def sampleKeyReturn : QKeyEvent := { key := 16777220, modifiers := 0, text := [⟨13⟩] }

/-! ## Helper lemmas -/

theorem engineCalls_append (t u : List Call) :
    engineCalls (t ++ u) = engineCalls t ++ engineCalls u := by
  simp [engineCalls]

theorem loop_eq (ancestors : List QGraphicsItem) (s : QGraphicsMozView) :
    forceActiveFocus.loop ancestors s = { s with trace := (s.trace ++
      (ancestors.filter (·.ItemIsFocusScope)).map
        (fun p => Call.host (.setFocus p.id .OtherFocusReason))) } := by
  induction ancestors generalizing s with
  | nil => simp [forceActiveFocus.loop]
  | cons p rest ih =>
    simp only [forceActiveFocus.loop]
    rw [ih]
    cases hp : p.ItemIsFocusScope <;> simp [emit, hp]

theorem engineCalls_cons_host (c : HostCall) (t : List Call) :
    engineCalls (Call.host c :: t) = engineCalls t := rfl

theorem engineCalls_nil : engineCalls [] = [] := rfl

theorem engineCalls_setFocus_map (l : List QGraphicsItem) :
    engineCalls (l.map (fun p => Call.host (.setFocus p.id .OtherFocusReason))) = [] := by
  induction l with
  | nil => rfl
  | cons p rest ih => simp [engineCalls, Call.isEngine]

theorem forceActiveFocus_uninitialized (s : QGraphicsMozView)
    (h : s.d.mViewInitialized = false) :
    forceActiveFocus s = .ok { s with trace := (s.trace ++
      (s.ancestors.filter (·.ItemIsFocusScope)).map
        (fun p => Call.host (.setFocus p.id .OtherFocusReason)) ++
      [Call.host (.setFocus s.id .OtherFocusReason)]) } := by
  simp [forceActiveFocus, loop_eq, emit, h]

/-! ## C1: nothing reaches the engine before the view is initialized -/

/-- C1: in every adapter state whose view is not initialized, each of load,
setUrl, stop, reload, goBack, goForward, sendAsyncMessage, the three mouse
handlers, the two key handlers and inputMethodEvent returns, for every
argument, without having issued any call to the engine (neither to the view
nor to the application), and leaves the view handle as it was. -/
theorem uninitialized_entry_issues_no_engine_call (ext : Externals) (op : Entry)
    (s : QGraphicsMozView) (h : s.d.mViewInitialized = false) :
    ∃ s', op.run ext s = .ok s' ∧ engineCalls s'.trace = engineCalls s.trace ∧
      s'.d.mView = s.d.mView := by
  cases op with
  | mousePressEvent tRestart now e =>
    simp [Entry.run, mousePressEvent, forceActiveFocus_uninitialized, h, singleTouch,
      passToItem, bind, Except.bind, pure, Except.pure, Except.map, QTime.restart]
    split <;> simp [emit, engineCalls_append, engineCalls_setFocus_map, engineCalls_cons_host,
      engineCalls_nil]
  | mouseMoveEvent now e =>
    simp [Entry.run, mouseMoveEvent, h, singleTouch, passToItem, bind, Except.bind, pure,
      Except.pure, Except.map]
    split <;> simp [emit, engineCalls, Call.isEngine]
  | mouseReleaseEvent now e =>
    simp [Entry.run, mouseReleaseEvent, h, singleTouch, passToItem, bind, Except.bind, pure,
      Except.pure, Except.map]
    split <;> split <;> simp [emit, engineCalls, Call.isEngine]
  | _ =>
    simp [Entry.run, load, setUrl, stop, reload, goBack, goForward, sendAsyncMessage,
      keyPressEvent, keyReleaseEvent, inputMethodEvent, h]

/-- Witness of C1: a mouse press on a newly constructed adapter. -/
theorem uninitialized_entry_issues_no_engine_call_witness :
    (QGraphicsMozView.new 7 []).d.mViewInitialized = false ∧
    ∃ s', (Entry.mousePressEvent 100 100 ⟨⟨10, 20⟩, false⟩).run sampleExternals
        (QGraphicsMozView.new 7 []) = .ok s' ∧
      engineCalls s'.trace = engineCalls (QGraphicsMozView.new 7 []).trace ∧
      s'.d.mView = (QGraphicsMozView.new 7 []).d.mView :=
  ⟨rfl, uninitialized_entry_issues_no_engine_call sampleExternals _ _ rfl⟩

/-! ## C2: frame scripts and message listeners are not guarded -/

/-- C2: `loadFrameScript` and `addMessageListener` carry no initialization
guard.  On a newly constructed adapter, whose view handle is still null, each
of them dereferences the null handle; on an adapter whose view is created but
not yet initialized, each of them issues its engine call. -/
theorem loadFrameScript_addMessageListener_unguarded :
    loadFrameScript sampleExternals [⟨97⟩] (QGraphicsMozView.new 0 []) =
      .error .nullDereference ∧
    addMessageListener sampleExternals [⟨97⟩] (QGraphicsMozView.new 0 []) =
      .error .nullDereference ∧
    sampleCreated.d.mViewInitialized = false ∧
    loadFrameScript sampleExternals [⟨97⟩] sampleCreated =
      .ok (emit (.view ⟨1⟩ (.LoadFrameScript [97])) sampleCreated) ∧
    addMessageListener sampleExternals [⟨97⟩] sampleCreated =
      .ok (emit (.view ⟨1⟩ (.AddMessageListener [97])) sampleCreated) :=
  ⟨rfl, rfl, rfl, rfl, rfl⟩

/-! ## C3: navigation on an initialized view -/

/-- C3, as stated, fails for the empty URL: on an initialized view with a
handle, `load` of the empty string and `setUrl` of an empty URL return without
any engine call, so not "exactly one LoadURL for every url string". -/
theorem empty_url_is_not_forwarded :
    sampleInitialized.d.mViewInitialized = true ∧
    load sampleExternals [] sampleInitialized = .ok sampleInitialized ∧
    setUrl sampleExternals ⟨true, []⟩ sampleInitialized = .ok sampleInitialized ∧
    ¬ (load sampleExternals [] sampleInitialized =
        .ok (emit (.view ⟨1⟩ (.LoadURL (sampleExternals.toUtf8
          (sampleExternals.fromUserInput []).toString))) sampleInitialized)) := by
  refine ⟨rfl, rfl, rfl, ?_⟩
  simp [load, emit, sampleInitialized]

/-- C3, amended: once the view is initialized (and its handle present),
`load` of a non-empty string issues exactly one `LoadURL` of
`fromUserInput(url).toString()`, `setUrl` of a non-empty URL exactly one
`LoadURL` of `url.toString()`, `stop` exactly one `StopLoad`, `reload` exactly
one `Reload(false)`, `goBack` exactly one `GoBack`, `goForward` exactly one
`GoForward`, nothing else is issued and nothing else in the adapter changes;
`load` and `setUrl` of an empty URL issue no call. -/
theorem initialized_navigation_forwarded_once (ext : Externals) (s : QGraphicsMozView)
    (v : EmbedLiteView) (hi : s.d.mViewInitialized = true) (hv : s.d.mView = some v) :
    (∀ url : QString, url ≠ [] →
      load ext url s =
        .ok (emit (.view v (.LoadURL (ext.toUtf8 (ext.fromUserInput url).toString))) s)) ∧
    (∀ url : QUrl, url.isEmpty = false →
      setUrl ext url s = .ok (emit (.view v (.LoadURL (ext.toUtf8 url.toString))) s)) ∧
    stop s = .ok (emit (.view v .StopLoad) s) ∧
    reload s = .ok (emit (.view v (.Reload false)) s) ∧
    goBack s = .ok (emit (.view v .GoBack) s) ∧
    goForward s = .ok (emit (.view v .GoForward) s) ∧
    load ext [] s = .ok s ∧
    (∀ url : QUrl, url.isEmpty = true → setUrl ext url s = .ok s) := by
  refine ⟨?_, ?_, ?_, ?_, ?_, ?_, ?_, ?_⟩
  · intro url hne
    cases url with
    | nil => exact absurd rfl hne
    | cons c rest => simp [load, callView, hi, hv]
  · intro url hne
    simp [setUrl, callView, hi, hv, hne]
  · simp [stop, callView, hi, hv]
  · simp [reload, callView, hi, hv]
  · simp [goBack, callView, hi, hv]
  · simp [goForward, callView, hi, hv]
  · simp [load]
  · intro url he
    simp [setUrl, he]

/-- Witness of C3 (amended): the sample initialized adapter. -/
theorem initialized_navigation_forwarded_once_witness :
    sampleInitialized.d.mViewInitialized = true ∧
    sampleInitialized.d.mView = some ⟨1⟩ ∧
    load sampleExternals [⟨97⟩] sampleInitialized =
      .ok (emit (.view ⟨1⟩ (.LoadURL [97])) sampleInitialized) ∧
    stop sampleInitialized = .ok (emit (.view ⟨1⟩ .StopLoad) sampleInitialized) :=
  have h := initialized_navigation_forwarded_once sampleExternals sampleInitialized ⟨1⟩ rfl rfl
  ⟨rfl, rfl, h.1 [⟨97⟩] (by decide), h.2.2.1⟩

/-! ## C4: activation creates the view at most once -/

theorem onInitialized_with_handle (ext : Externals) (s : QGraphicsMozView) (v : EmbedLiteView)
    (hv : s.d.mView = some v) : onInitialized ext s = .ok s := by
  simp [onInitialized, hv]

theorem onInitialized_without_handle (ext : Externals) (s : QGraphicsMozView)
    (hv : s.d.mView = none) :
    onInitialized ext s = .ok
      { s with
        d := { s.d with mView := some (ext.CreateView s.trace s.mParentID) },
        trace := (s.trace ++ [Call.app (.CreateView s.mParentID),
          Call.view (ext.CreateView s.trace s.mParentID) (.SetListener .d)]) } := by
  simp [onInitialized, hv, callView, emit]

theorem onInitialized_keeps_invariant (ext : Externals) (s : QGraphicsMozView)
    (h : CreatedAtMostOnce s) :
    ∃ s', onInitialized ext s = .ok s' ∧ CreatedAtMostOnce s' := by
  cases hv : s.d.mView with
  | some v => exact ⟨s, onInitialized_with_handle ext s v hv, h⟩
  | none =>
    refine ⟨_, onInitialized_without_handle ext s hv, Or.inr ⟨rfl, ?_⟩⟩
    rcases h with ⟨_, hc⟩ | ⟨hs, _⟩
    · simp only [createViewCount] at hc ⊢
      simp [List.countP_append, hc, Call.isCreateView]
    · simp [hv] at hs

theorem activation_keeps_invariant (ext : Externals) (act : Activation) (s : QGraphicsMozView)
    (h : CreatedAtMostOnce s) :
    ∃ s', act.run ext s = .ok s' ∧ CreatedAtMostOnce s' := by
  cases act with
  | onInitialized => exact onInitialized_keeps_invariant ext s h
  | setParentID n =>
    have h1 : CreatedAtMostOnce { s with mParentID := n % 2 ^ 32 } := h
    simp only [Activation.run, setParentID]
    split
    · exact onInitialized_keeps_invariant ext _ h1
    · exact ⟨_, rfl, h1⟩

theorem activations_keep_invariant (ext : Externals) (acts : List Activation)
    (s : QGraphicsMozView) (h : CreatedAtMostOnce s) :
    ∃ s', runAll (Activation.run ext) acts s = .ok s' ∧ CreatedAtMostOnce s' := by
  induction acts generalizing s with
  | nil => exact ⟨s, rfl, h⟩
  | cons act rest ih =>
    obtain ⟨s1, hrun, h1⟩ := activation_keeps_invariant ext act s h
    obtain ⟨s2, hrest, h2⟩ := ih s1 h1
    exact ⟨s2, by simp [runAll, hrun, hrest], h2⟩

/-- C4: every finite sequence of activation calls (`setParentID(n)` for any
n, `onInitialized`) applied to a newly constructed adapter runs to the end
with at most one `CreateView` call in the trace; and an activation call made
while a view handle is present returns without adding any call to the trace
(no `CreateView`, no `SetListener`) and with the same handle. -/
theorem activation_creates_view_at_most_once (ext : Externals) (acts : List Activation)
    (id : Nat) (ancestors : List QGraphicsItem) :
    (∃ s', runAll (Activation.run ext) acts (QGraphicsMozView.new id ancestors) = .ok s' ∧
      createViewCount s'.trace ≤ 1) ∧
    (∀ (s : QGraphicsMozView) (v : EmbedLiteView) (act : Activation), s.d.mView = some v →
      ∃ s', act.run ext s = .ok s' ∧ s'.trace = s.trace ∧ s'.d.mView = some v) := by
  constructor
  · obtain ⟨s', hrun, hinv⟩ := activations_keep_invariant ext acts
      (QGraphicsMozView.new id ancestors) (Or.inl ⟨rfl, rfl⟩)
    refine ⟨s', hrun, ?_⟩
    rcases hinv with ⟨_, hc⟩ | ⟨_, hc⟩
    · omega
    · exact hc
  · intro s v act hv
    cases act with
    | onInitialized => exact ⟨s, onInitialized_with_handle ext s v hv, rfl, hv⟩
    | setParentID n =>
      simp only [Activation.run, setParentID]
      split
      · exact ⟨_, onInitialized_with_handle ext _ v hv, rfl, hv⟩
      · exact ⟨_, rfl, rfl, hv⟩

/-- Witness of C4: `setParentID(0)`, `setParentID(5)`, `onInitialized`,
`setParentID(9)` on a new adapter create one view, for parent 5; and a
further `setParentID(9)` on the sample adapter, which has a handle, adds
nothing to its trace. -/
theorem activation_creates_view_at_most_once_witness :
    runAll (Activation.run sampleExternals)
        [.setParentID 0, .setParentID 5, .onInitialized, .setParentID 9]
        (QGraphicsMozView.new 0 []) =
      .ok { d := { mView := some ⟨1⟩, mViewInitialized := false,
                   mPendingTouchEvent := false, mPanningTime := ⟨0⟩ },
            mParentID := 9, id := 0, ancestors := [],
            trace := [.app (.CreateView 5), .view ⟨1⟩ (.SetListener .d)] } ∧
    sampleInitialized.d.mView = some ⟨1⟩ ∧
    ∃ s', (Activation.setParentID 9).run sampleExternals sampleInitialized = .ok s' ∧
      s'.trace = sampleInitialized.trace ∧ s'.d.mView = some ⟨1⟩ :=
  ⟨rfl, rfl,
    (activation_creates_view_at_most_once sampleExternals [] 0 []).2
      sampleInitialized ⟨1⟩ (.setParentID 9) rfl⟩

/-! ## C5: a mouse event becomes one single-point multi-touch event -/

theorem tdiv_num_den (q : ℚ) :
    Int.tdiv q.num q.den = if 0 ≤ q then ⌊q⌋ else ⌈q⌉ := by
  by_cases h : 0 ≤ q
  · rw [if_pos h, Rat.floor_def,
      Int.tdiv_eq_ediv (Rat.num_nonneg.mpr h) (Int.natCast_nonneg _)]
  · rw [if_neg h]
    have hneg : 0 ≤ (-q).num := Rat.num_nonneg.mpr (by linarith [not_le.mp h])
    have h1 : Int.tdiv q.num q.den = -Int.tdiv (-q.num) q.den := by
      rw [Int.neg_tdiv, neg_neg]
    have h2 : ⌈q⌉ = -⌊-q⌋ := by rw [Int.floor_neg, neg_neg]
    rw [h1, h2, Rat.floor_def, Rat.neg_num, Rat.neg_den,
      Int.tdiv_eq_ediv (by rw [← Rat.neg_num]; exact hneg) (Int.natCast_nonneg _)]

theorem qrealToInt_eq_truncatedCoordinate (q : ℚ) : qrealToInt q = truncatedCoordinate q := by
  simp only [qrealToInt, truncatedCoordinate, tdiv_num_den, INT_MIN, INT_MAX]

theorem ofQPointF_eq_truncated (p : QPointF) :
    nsIntPoint.ofQPointF p = ⟨truncatedCoordinate p.x, truncatedCoordinate p.y⟩ := by
  simp only [nsIntPoint.ofQPointF, qrealToInt_eq_truncatedCoordinate]

theorem elapsed_eq_millisecondsBetween (t : QTime) (now : Nat) :
    t.elapsed now = millisecondsBetween t.ms now := by
  simp only [QTime.elapsed, millisecondsBetween, MSECS_PER_DAY]

theorem qrealToInt_intCast (x : Int) (h : INT_MIN ≤ x ∧ x ≤ INT_MAX) :
    qrealToInt (x : ℚ) = x := by
  simp [qrealToInt, h]

theorem qrealToInt_out_of_range : qrealToInt 3000000000 = -2147483648 := by
  rw [qrealToInt_eq_truncatedCoordinate]
  have h : ⌊(3000000000 : ℚ)⌋ = 3000000000 := by
    rw [Int.floor_eq_iff]; norm_num
  simp only [truncatedCoordinate, h]
  norm_num

theorem qrealToInt_21_half : qrealToInt (21 / 2) = 10 := by
  have h : ((21 / 2 : ℚ)).num = 21 ∧ ((21 / 2 : ℚ)).den = 2 := by norm_num
  simp only [qrealToInt, h.1, h.2]
  decide

theorem touchEvents_append (t u : List Call) :
    touchEvents (t ++ u) = touchEvents t ++ touchEvents u := by
  simp [touchEvents]

theorem focusGrants_append (t u : List Call) :
    focusGrants (t ++ u) = focusGrants t ++ focusGrants u := by
  simp [focusGrants]

theorem touchEvents_setFocus_map (l : List QGraphicsItem) :
    touchEvents (l.map (fun p => Call.host (.setFocus p.id .OtherFocusReason))) = [] := by
  induction l with
  | nil => rfl
  | cons p rest ih => simp [touchEvents]

theorem focusGrants_setFocus_map (l : List QGraphicsItem) :
    focusGrants (l.map (fun p => Call.host (.setFocus p.id .OtherFocusReason))) =
      l.map (fun p => (p.id, FocusReason.OtherFocusReason)) := by
  induction l with
  | nil => rfl
  | cons p rest ih =>
    have hcons : ∀ (i : Nat) (r : FocusReason) (t : List Call),
        focusGrants (Call.host (.setFocus i r) :: t) = (i, r) :: focusGrants t :=
      fun _ _ _ => rfl
    simp only [List.map_cons, hcons, ih]

/-- What `forceActiveFocus` does in a state that satisfies the invariant: it
returns, having appended the focus calls and then either nothing or one
`SetIsActive(true)`. -/
theorem forceActiveFocus_ok (s : QGraphicsMozView) (h : HandlePresentWhenInitialized s) :
    ∃ tail, forceActiveFocus s = .ok { s with trace := (s.trace ++
        (s.ancestors.filter (·.ItemIsFocusScope)).map
          (fun p => Call.host (.setFocus p.id .OtherFocusReason)) ++
        [Call.host (.setFocus s.id .OtherFocusReason)] ++ tail) } ∧
      touchEvents tail = [] ∧ focusGrants tail = [] := by
  cases hi : s.d.mViewInitialized with
  | false => exact ⟨[], by simp [forceActiveFocus_uninitialized s hi], rfl, rfl⟩
  | true =>
    cases hv : s.d.mView with
    | none => simp [HandlePresentWhenInitialized, hi, hv] at h
    | some v =>
      exact ⟨[Call.view v (.SetIsActive true)],
        by simp [forceActiveFocus, loop_eq, emit, hi, hv, callView], rfl, rfl⟩

theorem touchEvents_emit_input (v : EmbedLiteView) (ev : MultiTouchInput)
    (s : QGraphicsMozView) :
    touchEvents (emit (.view v (.ReceiveInputEvent ev)) s).trace = touchEvents s.trace ++ [ev] := by
  simp [emit, touchEvents_append, touchEvents]

theorem forceActiveFocus_returns (s : QGraphicsMozView) (h : HandlePresentWhenInitialized s) :
    ∃ s', forceActiveFocus s = .ok s' ∧ s'.d = s.d ∧
      touchEvents s'.trace = touchEvents s.trace ∧
      focusGrants s'.trace = focusGrants s.trace ++
        (s.ancestors.filter (·.ItemIsFocusScope)).map
          (fun p => (p.id, FocusReason.OtherFocusReason)) ++
        [(s.id, FocusReason.OtherFocusReason)] := by
  obtain ⟨tail, hf, ht, hg⟩ := forceActiveFocus_ok s h
  refine ⟨_, hf, rfl, ?_, ?_⟩
  · have hhost : ∀ (c : HostCall) (t : List Call),
        touchEvents (Call.host c :: t) = touchEvents t := fun _ _ => rfl
    simp [touchEvents_append, touchEvents_setFocus_map, ht, hhost]
  · simp only [focusGrants_append, focusGrants_setFocus_map, hg, List.append_nil]
    rfl

theorem singleTouch_forwards (type : MultiTouchType) (now : Nat) (e : QGraphicsSceneMouseEvent)
    (s : QGraphicsMozView) (v : EmbedLiteView) (hi : s.d.mViewInitialized = true)
    (hv : s.d.mView = some v) (hp : s.d.mPendingTouchEvent = false) :
    singleTouch type now e s =
      .ok (emit (.view v (.ReceiveInputEvent
        (expectedTouch type (s.d.mPanningTime.elapsed now) (nsIntPoint.ofQPointF e.pos)))) s,
        e) := by
  simp [singleTouch, ReceiveInputEvent, callView, expectedTouch, hi, hv, hp, bind, Except.bind,
    pure, Except.pure]

theorem singleTouch_suppressed (type : MultiTouchType) (now : Nat)
    (e : QGraphicsSceneMouseEvent) (s : QGraphicsMozView)
    (h : s.d.mViewInitialized = false ∨ s.d.mPendingTouchEvent = true) :
    singleTouch type now e s = .ok (s, e) := by
  rcases h with h | h <;> simp [singleTouch, h, pure, Except.pure]

theorem passToItem_fst (ext : Externals) (r : QGraphicsMozView × QGraphicsSceneMouseEvent) :
    (passToItem ext r).1.d = r.1.d ∧ touchEvents (passToItem ext r).1.trace = touchEvents r.1.trace ∧
      focusGrants (passToItem ext r).1.trace = focusGrants r.1.trace := by
  unfold passToItem
  split
  · simp [emit, touchEvents, focusGrants]
  · exact ⟨rfl, rfl, rfl⟩

theorem mouseMoveEvent_forwards (ext : Externals) (now : Nat) (e : QGraphicsSceneMouseEvent)
    (s : QGraphicsMozView) (v : EmbedLiteView) (hi : s.d.mViewInitialized = true)
    (hv : s.d.mView = some v) (hp : s.d.mPendingTouchEvent = false) :
    ∃ r, mouseMoveEvent ext now e s = .ok r ∧ r.1.d = s.d ∧
      touchEvents r.1.trace = touchEvents s.trace ++
        [expectedTouch .MULTITOUCH_MOVE (s.d.mPanningTime.elapsed now)
          (nsIntPoint.ofQPointF e.pos)] := by
  have h : mouseMoveEvent ext now e s = .ok (passToItem ext
      (emit (.view v (.ReceiveInputEvent (expectedTouch .MULTITOUCH_MOVE
        (s.d.mPanningTime.elapsed now) (nsIntPoint.ofQPointF e.pos)))) s, e)) := by
    simp only [mouseMoveEvent, singleTouch_forwards _ now e s v hi hv hp, bind,
      Except.bind, pure, Except.pure]
  refine ⟨_, h, ?_, ?_⟩
  · rw [(passToItem_fst ext _).1]; rfl
  · rw [(passToItem_fst ext _).2.1]
    simp [emit, touchEvents_append, touchEvents]

theorem mouseReleaseEvent_forwards (ext : Externals) (now : Nat)
    (e : QGraphicsSceneMouseEvent) (s : QGraphicsMozView) (v : EmbedLiteView)
    (hi : s.d.mViewInitialized = true) (hv : s.d.mView = some v)
    (hp : s.d.mPendingTouchEvent = false) :
    ∃ r, mouseReleaseEvent ext now e s = .ok r ∧ r.1.d = s.d ∧
      touchEvents r.1.trace = touchEvents s.trace ++
        [expectedTouch .MULTITOUCH_END (s.d.mPanningTime.elapsed now)
          (nsIntPoint.ofQPointF e.pos)] := by
  have h : mouseReleaseEvent ext now e s = .ok (passToItem ext
      (emit (.view v (.ReceiveInputEvent (expectedTouch .MULTITOUCH_END
        (s.d.mPanningTime.elapsed now) (nsIntPoint.ofQPointF e.pos)))) s, e)) := by
    simp [mouseReleaseEvent, singleTouch_forwards _ now e s v hi hv hp, bind,
      Except.bind, pure, Except.pure, emit, hp]
  refine ⟨_, h, ?_, ?_⟩
  · rw [(passToItem_fst ext _).1]; rfl
  · rw [(passToItem_fst ext _).2.1]
    simp [emit, touchEvents_append, touchEvents]

theorem mousePressEvent_forwards (ext : Externals) (tRestart now : Nat)
    (e : QGraphicsSceneMouseEvent) (s : QGraphicsMozView) (v : EmbedLiteView)
    (hi : s.d.mViewInitialized = true) (hv : s.d.mView = some v)
    (hp : s.d.mPendingTouchEvent = false) :
    ∃ r, mousePressEvent ext tRestart now e s = .ok r ∧
      r.1.d = { s.d with mPanningTime := ⟨tRestart⟩ } ∧
      touchEvents r.1.trace = touchEvents s.trace ++
        [expectedTouch .MULTITOUCH_START ((QTime.mk tRestart).elapsed now)
          (nsIntPoint.ofQPointF e.pos)] := by
  have hw : HandlePresentWhenInitialized
      { s with d := { s.d with mPanningTime := s.d.mPanningTime.restart tRestart } } := by
    intro _; simp [hv]
  obtain ⟨s2, hf, hd, ht, _⟩ := forceActiveFocus_returns _ hw
  have hst := singleTouch_forwards .MULTITOUCH_START now e s2 v (by rw [hd]; exact hi)
    (by rw [hd]; exact hv) (by rw [hd]; exact hp)
  have h : mousePressEvent ext tRestart now e s = .ok (passToItem ext
      (emit (.view v (.ReceiveInputEvent (expectedTouch .MULTITOUCH_START
        (s2.d.mPanningTime.elapsed now) (nsIntPoint.ofQPointF e.pos)))) s2, e)) := by
    simp only [mousePressEvent, bind, Except.bind, hf, hst, pure, Except.pure]
  refine ⟨_, h, ?_, ?_⟩
  · rw [(passToItem_fst ext _).1]
    simp [emit, hd, QTime.restart]
  · rw [(passToItem_fst ext _).2.1, touchEvents_emit_input, ht, hd]
    rfl

/-- C5, as stated, fails for a position with a fractional coordinate and for
one beyond the range of `int`: on the sample initialized adapter, with no
touch session pending, a mouse move at (21/2, 20) forwards a touch point at
the integer point (10, 20), and a mouse move at (3000000000, 20) forwards one
at (-2147483648, 20); neither is the position of the event. -/
theorem fractional_position_is_truncated :
    (mouseMoveEvent sampleExternals 7 ⟨⟨21 / 2, 20⟩, true⟩ sampleInitialized).map
        (fun r => touchEvents r.1.trace) =
      .ok [expectedTouch .MULTITOUCH_MOVE 7 ⟨10, 20⟩] ∧
    (((10 : Int) : ℚ), ((20 : Int) : ℚ)) ≠ ((21 / 2 : ℚ), (20 : ℚ)) ∧
    (mouseMoveEvent sampleExternals 7 ⟨⟨3000000000, 20⟩, true⟩ sampleInitialized).map
        (fun r => touchEvents r.1.trace) =
      .ok [expectedTouch .MULTITOUCH_MOVE 7 ⟨-2147483648, 20⟩] ∧
    (((-2147483648 : Int) : ℚ), ((20 : Int) : ℚ)) ≠ ((3000000000 : ℚ), (20 : ℚ)) := by
  have hx : qrealToInt (21 / 2) = 10 := qrealToInt_21_half
  have hy : qrealToInt 20 = 20 := qrealToInt_intCast 20 (by decide)
  refine ⟨?_, by norm_num, ?_, by norm_num⟩
  · obtain ⟨r, hr, _, ht⟩ := mouseMoveEvent_forwards sampleExternals 7 ⟨⟨21 / 2, 20⟩, true⟩
      sampleInitialized ⟨1⟩ rfl rfl rfl
    rw [hr]
    simp only [Except.map, ht, nsIntPoint.ofQPointF, hx, hy]
    rfl
  · obtain ⟨r, hr, _, ht⟩ := mouseMoveEvent_forwards sampleExternals 7
      ⟨⟨3000000000, 20⟩, true⟩ sampleInitialized ⟨1⟩ rfl rfl rfl
    rw [hr]
    simp only [Except.map, ht, nsIntPoint.ofQPointF, qrealToInt_out_of_range, hy]
    rfl

/-- C5, amended: on an initialized view (handle present) with no native touch
session pending, the forwarding block of each mouse handler hands exactly one
multi-touch event to the engine view and leaves the mouse event, hence its
accepted flag, as it was; for an event at position (x, y) the press handler
forwards exactly one START event, the move handler one MOVE event and the
release handler one END event, each with exactly one touch point with
identifier 0, radius (1, 1), orientation 180, pressure 1 and the position
(x, y) converted to `int` coordinates: each coordinate rounded toward zero,
or -2147483648 when the rounded value does not fit a 32-bit `int`; the
timestamp is the elapsed time of the gesture clock, the milliseconds from its
last restart (which for a press is the one the press itself makes) to the
reading of the handler. -/
theorem mouse_event_forwards_one_touch (ext : Externals) (tRestart now : Nat)
    (e : QGraphicsSceneMouseEvent) (s : QGraphicsMozView) (v : EmbedLiteView)
    (hi : s.d.mViewInitialized = true) (hv : s.d.mView = some v)
    (hp : s.d.mPendingTouchEvent = false) :
    (∀ type, singleTouch type now e s =
      .ok (emit (.view v (.ReceiveInputEvent (expectedTouch type
        (millisecondsBetween s.d.mPanningTime.ms now)
        ⟨truncatedCoordinate e.pos.x, truncatedCoordinate e.pos.y⟩))) s, e)) ∧
    (∃ r, mousePressEvent ext tRestart now e s = .ok r ∧
      touchEvents r.1.trace = touchEvents s.trace ++
        [expectedTouch .MULTITOUCH_START (millisecondsBetween tRestart now)
          ⟨truncatedCoordinate e.pos.x, truncatedCoordinate e.pos.y⟩]) ∧
    (∃ r, mouseMoveEvent ext now e s = .ok r ∧
      touchEvents r.1.trace = touchEvents s.trace ++
        [expectedTouch .MULTITOUCH_MOVE (millisecondsBetween s.d.mPanningTime.ms now)
          ⟨truncatedCoordinate e.pos.x, truncatedCoordinate e.pos.y⟩]) ∧
    (∃ r, mouseReleaseEvent ext now e s = .ok r ∧
      touchEvents r.1.trace = touchEvents s.trace ++
        [expectedTouch .MULTITOUCH_END (millisecondsBetween s.d.mPanningTime.ms now)
          ⟨truncatedCoordinate e.pos.x, truncatedCoordinate e.pos.y⟩]) := by
  refine ⟨fun type => ?_, ?_, ?_, ?_⟩
  · rw [singleTouch_forwards type now e s v hi hv hp, ofQPointF_eq_truncated,
      elapsed_eq_millisecondsBetween]
  · obtain ⟨r, hr, _, ht⟩ := mousePressEvent_forwards ext tRestart now e s v hi hv hp
    rw [ofQPointF_eq_truncated, elapsed_eq_millisecondsBetween] at ht
    exact ⟨r, hr, ht⟩
  · obtain ⟨r, hr, _, ht⟩ := mouseMoveEvent_forwards ext now e s v hi hv hp
    rw [ofQPointF_eq_truncated, elapsed_eq_millisecondsBetween] at ht
    exact ⟨r, hr, ht⟩
  · obtain ⟨r, hr, _, ht⟩ := mouseReleaseEvent_forwards ext now e s v hi hv hp
    rw [ofQPointF_eq_truncated, elapsed_eq_millisecondsBetween] at ht
    exact ⟨r, hr, ht⟩

/-- Witness of C5 (amended): a press at (10, 20) on the sample initialized
adapter, the clock reading 1000 at the restart and 1003 afterwards, is
forwarded as one START event with timestamp 3 at the point (10, 20). -/
theorem mouse_event_forwards_one_touch_witness :
    sampleInitialized.d.mViewInitialized = true ∧
    sampleInitialized.d.mView = some ⟨1⟩ ∧
    sampleInitialized.d.mPendingTouchEvent = false ∧
    (∃ r, mousePressEvent sampleExternals 1000 1003 ⟨⟨10, 20⟩, true⟩ sampleInitialized = .ok r ∧
      touchEvents r.1.trace = touchEvents sampleInitialized.trace ++
        [expectedTouch .MULTITOUCH_START (millisecondsBetween 1000 1003)
          ⟨truncatedCoordinate 10, truncatedCoordinate 20⟩]) ∧
    millisecondsBetween 1000 1003 = 3 ∧
    truncatedCoordinate 10 = 10 ∧ truncatedCoordinate 20 = 20 ∧
    truncatedCoordinate (-7 / 2) = -3 ∧ truncatedCoordinate 3000000000 = -2147483648 :=
  ⟨rfl, rfl, rfl,
    (mouse_event_forwards_one_touch sampleExternals 1000 1003 ⟨⟨10, 20⟩, true⟩
      sampleInitialized ⟨1⟩ rfl rfl rfl).2.1,
    by decide, by simp [truncatedCoordinate], by simp [truncatedCoordinate],
    by
      have h : ⌈(-7 / 2 : ℚ)⌉ = -3 := by
        rw [Int.ceil_eq_iff]; norm_num
      simp only [truncatedCoordinate, h]
      norm_num,
    by
      have h : ⌊(3000000000 : ℚ)⌋ = 3000000000 := by
        rw [Int.floor_eq_iff]; norm_num
      simp only [truncatedCoordinate, h]
      norm_num⟩

/-! ## C6: the touch latch suppresses the mouse path until the release -/

theorem pressOrMove_suppressed (ext : Externals) (ev : PressOrMove) (s : QGraphicsMozView)
    (hw : HandlePresentWhenInitialized s) (hp : s.d.mPendingTouchEvent = true) :
    ∃ s1, ev.run ext s = .ok s1 ∧ touchEvents s1.trace = touchEvents s.trace ∧
      s1.d.mPendingTouchEvent = true ∧ s1.d.mView = s.d.mView ∧
      s1.d.mViewInitialized = s.d.mViewInitialized := by
  cases ev with
  | move now e =>
    have h : mouseMoveEvent ext now e s = .ok (passToItem ext (s, e)) := by
      simp only [mouseMoveEvent, singleTouch_suppressed _ now e s (Or.inr hp), bind,
        Except.bind, pure, Except.pure]
    refine ⟨(passToItem ext (s, e)).1, by simp [PressOrMove.run, h, Except.map], ?_, ?_, ?_, ?_⟩
    · exact (passToItem_fst ext _).2.1
    · rw [(passToItem_fst ext _).1]; exact hp
    · rw [(passToItem_fst ext _).1]
    · rw [(passToItem_fst ext _).1]
  | press tRestart now e =>
    have hw1 : HandlePresentWhenInitialized
        { s with d := { s.d with mPanningTime := s.d.mPanningTime.restart tRestart } } := hw
    obtain ⟨s2, hf, hd, ht, _⟩ := forceActiveFocus_returns _ hw1
    have hst := singleTouch_suppressed .MULTITOUCH_START now e s2
      (Or.inr (by rw [hd]; exact hp))
    have h : mousePressEvent ext tRestart now e s = .ok (passToItem ext (s2, e)) := by
      simp only [mousePressEvent, bind, Except.bind, hf, hst, pure, Except.pure]
    refine ⟨(passToItem ext (s2, e)).1, by simp [PressOrMove.run, h, Except.map], ?_, ?_, ?_, ?_⟩
    · rw [(passToItem_fst ext _).2.1]; exact ht
    · rw [(passToItem_fst ext _).1, hd]; exact hp
    · rw [(passToItem_fst ext _).1, hd]
    · rw [(passToItem_fst ext _).1, hd]

theorem pressOrMove_sequence_suppressed (ext : Externals) (evs : List PressOrMove)
    (s : QGraphicsMozView) (hw : HandlePresentWhenInitialized s)
    (hp : s.d.mPendingTouchEvent = true) :
    ∃ s1, runAll (PressOrMove.run ext) evs s = .ok s1 ∧
      touchEvents s1.trace = touchEvents s.trace ∧
      s1.d.mPendingTouchEvent = true ∧ s1.d.mView = s.d.mView ∧
      s1.d.mViewInitialized = s.d.mViewInitialized := by
  induction evs generalizing s with
  | nil => exact ⟨s, rfl, rfl, hp, rfl, rfl⟩
  | cons ev rest ih =>
    obtain ⟨s1, hrun, ht1, hp1, hv1, hi1⟩ := pressOrMove_suppressed ext ev s hw hp
    have hw1 : HandlePresentWhenInitialized s1 := by
      intro h; rw [hv1]; exact hw (hi1 ▸ h)
    obtain ⟨s2, hrest, ht2, hp2, hv2, hi2⟩ := ih s1 hw1 hp1
    exact ⟨s2, by simp [runAll, hrun, hrest], ht2.trans ht1, hp2, hv2.trans hv1,
      hi2.trans hi1⟩

theorem mouseReleaseEvent_suppressed (ext : Externals) (now : Nat)
    (e : QGraphicsSceneMouseEvent) (s : QGraphicsMozView)
    (hp : s.d.mPendingTouchEvent = true) :
    ∃ r, mouseReleaseEvent ext now e s = .ok r ∧ touchEvents r.1.trace = touchEvents s.trace ∧
      r.1.d = { s.d with mPendingTouchEvent := false } := by
  have h : mouseReleaseEvent ext now e s = .ok (passToItem ext
      ({ s with d := { s.d with mPendingTouchEvent := false } }, e)) := by
    simp [mouseReleaseEvent, singleTouch_suppressed _ now e s (Or.inr hp), bind,
      Except.bind, pure, Except.pure, hp]
  refine ⟨_, h, ?_, ?_⟩
  · rw [(passToItem_fst ext _).2.1]
  · rw [(passToItem_fst ext _).1]

theorem mouseReleaseEvent_clears_latch (ext : Externals) (now : Nat)
    (e : QGraphicsSceneMouseEvent) (s : QGraphicsMozView)
    (hw : HandlePresentWhenInitialized s) :
    ∃ r, mouseReleaseEvent ext now e s = .ok r ∧ r.1.d.mPendingTouchEvent = false ∧
      r.1.d.mView = s.d.mView ∧ r.1.d.mViewInitialized = s.d.mViewInitialized := by
  cases hp : s.d.mPendingTouchEvent with
  | true =>
    obtain ⟨r, hr, _, hd⟩ := mouseReleaseEvent_suppressed ext now e s hp
    exact ⟨r, hr, by rw [hd], by rw [hd], by rw [hd]⟩
  | false =>
    cases hi : s.d.mViewInitialized with
    | true =>
      cases hv : s.d.mView with
      | none => simp [HandlePresentWhenInitialized, hi, hv] at hw
      | some v =>
        obtain ⟨r, hr, hd, _⟩ := mouseReleaseEvent_forwards ext now e s v hi hv hp
        exact ⟨r, hr, by rw [hd]; exact hp, by rw [hd]; exact hv, by rw [hd]; exact hi⟩
    | false =>
      have h : mouseReleaseEvent ext now e s = .ok (passToItem ext (s, e)) := by
        simp [mouseReleaseEvent, singleTouch_suppressed _ now e s (Or.inl hi), bind,
          Except.bind, pure, Except.pure, hp]
      refine ⟨_, h, ?_, ?_, ?_⟩
      · rw [(passToItem_fst ext _).1]; exact hp
      · rw [(passToItem_fst ext _).1]
      · rw [(passToItem_fst ext _).1]; exact hi

/-- C6: in every adapter state (satisfying the state invariant)
`mouseReleaseEvent` returns with the touch latch cleared.  And when the latch
is set, every sequence of mouse presses and moves runs to its end without
handing any multi-touch event to the engine and with the latch still set; the
mouse release that follows hands over nothing either and clears the latch;
and if the view is initialized, a mouse press after that release is
forwarded again, as one START event. -/
theorem touch_latch_suppresses_mouse_until_release (ext : Externals)
    (evs : List PressOrMove) (now tRestart' now' : Nat) (e e' : QGraphicsSceneMouseEvent)
    (s : QGraphicsMozView) (hw : HandlePresentWhenInitialized s) :
    (∃ r, mouseReleaseEvent ext now e s = .ok r ∧ r.1.d.mPendingTouchEvent = false) ∧
    (s.d.mPendingTouchEvent = true →
      ∃ s1 r, runAll (PressOrMove.run ext) evs s = .ok s1 ∧
        touchEvents s1.trace = touchEvents s.trace ∧
        s1.d.mPendingTouchEvent = true ∧
        mouseReleaseEvent ext now e s1 = .ok r ∧
        touchEvents r.1.trace = touchEvents s.trace ∧
        r.1.d.mPendingTouchEvent = false ∧
        (s.d.mViewInitialized = true →
          ∃ r', mousePressEvent ext tRestart' now' e' r.1 = .ok r' ∧
            touchEvents r'.1.trace = touchEvents s.trace ++
              [expectedTouch .MULTITOUCH_START ((QTime.mk tRestart').elapsed now')
                (nsIntPoint.ofQPointF e'.pos)])) := by
  constructor
  · obtain ⟨r, hr, hp, _⟩ := mouseReleaseEvent_clears_latch ext now e s hw
    exact ⟨r, hr, hp⟩
  · intro hp
    obtain ⟨s1, hrun, ht1, hp1, hv1, hi1⟩ := pressOrMove_sequence_suppressed ext evs s hw hp
    obtain ⟨r, hr, htr, hdr⟩ := mouseReleaseEvent_suppressed ext now e s1 hp1
    refine ⟨s1, r, hrun, ht1, hp1, hr, htr.trans ht1, by rw [hdr], ?_⟩
    intro hi
    cases hv : s.d.mView with
    | none => simp [HandlePresentWhenInitialized, hi, hv] at hw
    | some v =>
      obtain ⟨r', hr', _, ht'⟩ := mousePressEvent_forwards ext tRestart' now' e' r.1 v
        (by rw [hdr]; exact hi1.trans hi) (by rw [hdr]; exact hv1.trans hv) (by rw [hdr])
      exact ⟨r', hr', by rw [ht', htr, ht1]⟩

/-- Witness of C6: with the latch set on the sample adapter, a press and a
move hand nothing to the engine, nor does the release, which clears the
latch. -/
theorem touch_latch_suppresses_mouse_until_release_witness :
    HandlePresentWhenInitialized sampleTouching ∧
    sampleTouching.d.mPendingTouchEvent = true ∧
    ∃ s1 r, runAll (PressOrMove.run sampleExternals)
          [.press 1000 1000 ⟨⟨10, 20⟩, true⟩, .move 1004 ⟨⟨11, 20⟩, true⟩] sampleTouching =
          .ok s1 ∧
        touchEvents s1.trace = touchEvents sampleTouching.trace ∧
        s1.d.mPendingTouchEvent = true ∧
        mouseReleaseEvent sampleExternals 1009 ⟨⟨11, 20⟩, true⟩ s1 = .ok r ∧
        touchEvents r.1.trace = touchEvents sampleTouching.trace ∧
        r.1.d.mPendingTouchEvent = false ∧
        (sampleTouching.d.mViewInitialized = true →
          ∃ r', mousePressEvent sampleExternals 2000 2001 ⟨⟨3, 4⟩, true⟩ r.1 = .ok r' ∧
            touchEvents r'.1.trace = touchEvents sampleTouching.trace ++
              [expectedTouch .MULTITOUCH_START ((QTime.mk 2000).elapsed 2001)
                (nsIntPoint.ofQPointF ⟨3, 4⟩)]) :=
  ⟨fun _ => rfl, rfl,
    (touch_latch_suppresses_mouse_until_release sampleExternals
      [.press 1000 1000 ⟨⟨10, 20⟩, true⟩, .move 1004 ⟨⟨11, 20⟩, true⟩] 1009 2000 2001
      ⟨⟨11, 20⟩, true⟩ ⟨⟨3, 4⟩, true⟩ sampleTouching (fun _ => rfl)).2 rfl⟩

/-! ## C9 and C7: key delivery modes -/

theorem keyPressEvent_initialized (ext : Externals) (env : Bool) (event : QKeyEvent)
    (s : QGraphicsMozView) (v : EmbedLiteView) (hi : s.d.mViewInitialized = true)
    (hv : s.d.mView = some v) :
    keyPressEvent ext env event s =
      if ((printableChar ext event.text).isSome && env) || ext.Q_WS_MAEMO_5 then .ok s
      else .ok (emit (.view v (.SendKeyPress
        (ext.QtKeyCodeToDOMKeyCode event.key event.modifiers)
        (ext.QtModifierToDOMModifier event.modifiers) (charCodeOf ext event.text))) s) := by
  cases hc : printableChar ext event.text <;> cases env <;> cases hm : ext.Q_WS_MAEMO_5 <;>
    simp [keyPressEvent, charCodeOf, callView, hi, hv, hc, hm]

theorem keyReleaseEvent_initialized (ext : Externals) (env : Bool) (event : QKeyEvent)
    (s : QGraphicsMozView) (v : EmbedLiteView) (hi : s.d.mViewInitialized = true)
    (hv : s.d.mView = some v) :
    keyReleaseEvent ext env event s =
      if (printableChar ext event.text).isSome && env then
        .ok (emit (.view v (.SendTextEvent (ext.toUtf8 event.text) [])) s)
      else if ext.Q_WS_MAEMO_5 then
        .ok (emit (.view v (.SendKeyRelease
          (ext.QtKeyCodeToDOMKeyCode event.key event.modifiers)
          (ext.QtModifierToDOMModifier event.modifiers) (charCodeOf ext event.text)))
          (emit (.view v (.SendKeyPress
            (ext.QtKeyCodeToDOMKeyCode event.key event.modifiers)
            (ext.QtModifierToDOMModifier event.modifiers) (charCodeOf ext event.text))) s))
      else
        .ok (emit (.view v (.SendKeyRelease
          (ext.QtKeyCodeToDOMKeyCode event.key event.modifiers)
          (ext.QtModifierToDOMModifier event.modifiers) (charCodeOf ext event.text))) s) := by
  cases hc : printableChar ext event.text <;> cases env <;> cases hm : ext.Q_WS_MAEMO_5 <;>
    simp [keyReleaseEvent, charCodeOf, callView, hi, hv, hc, hm, emit, bind, Except.bind, pure,
      Except.pure]

/-- C9: on an initialized view (handle present) of the default, non-Maemo
build, for every key event with key k, modifiers m and text t.  When t begins
with a printable character and the text-event toggle is set, `keyPressEvent`
issues no call and `keyReleaseEvent` exactly one `SendTextEvent(t, "")`.  When
t begins with a printable character of code unit c and the toggle is unset,
`keyPressEvent` issues exactly one `SendKeyPress(domKey(k, m),
domModifiers(m), c)` and `keyReleaseEvent` exactly one
`SendKeyRelease(domKey(k, m), domModifiers(m), c)`.  When t is empty or begins
with a character that is not printable, then whatever the toggle,
`keyPressEvent` issues exactly one `SendKeyPress(domKey(k, m),
domModifiers(m), 0)` and `keyReleaseEvent` exactly one
`SendKeyRelease(domKey(k, m), domModifiers(m), 0)`. -/
theorem key_delivery_modes (ext : Externals) (env : Bool) (event : QKeyEvent)
    (s : QGraphicsMozView) (v : EmbedLiteView) (hm : ext.Q_WS_MAEMO_5 = false)
    (hi : s.d.mViewInitialized = true) (hv : s.d.mView = some v) :
    (∀ ch rest, event.text = ch :: rest → ext.isPrint ch = true → env = true →
      keyPressEvent ext env event s = .ok s ∧
      keyReleaseEvent ext env event s =
        .ok (emit (.view v (.SendTextEvent (ext.toUtf8 event.text) [])) s)) ∧
    (∀ ch rest, event.text = ch :: rest → ext.isPrint ch = true → env = false →
      keyPressEvent ext env event s =
        .ok (emit (.view v (.SendKeyPress
          (ext.QtKeyCodeToDOMKeyCode event.key event.modifiers)
          (ext.QtModifierToDOMModifier event.modifiers) (ch.unicode : Int))) s) ∧
      keyReleaseEvent ext env event s =
        .ok (emit (.view v (.SendKeyRelease
          (ext.QtKeyCodeToDOMKeyCode event.key event.modifiers)
          (ext.QtModifierToDOMModifier event.modifiers) (ch.unicode : Int))) s)) ∧
    ((event.text = [] ∨ ∃ ch rest, event.text = ch :: rest ∧ ext.isPrint ch = false) →
      keyPressEvent ext env event s =
        .ok (emit (.view v (.SendKeyPress
          (ext.QtKeyCodeToDOMKeyCode event.key event.modifiers)
          (ext.QtModifierToDOMModifier event.modifiers) 0)) s) ∧
      keyReleaseEvent ext env event s =
        .ok (emit (.view v (.SendKeyRelease
          (ext.QtKeyCodeToDOMKeyCode event.key event.modifiers)
          (ext.QtModifierToDOMModifier event.modifiers) 0)) s)) := by
  refine ⟨?_, ?_, ?_⟩
  · intro ch rest ht hpr he
    simp [keyPressEvent, keyReleaseEvent, printableChar, ht, hpr, he, hi, hv, callView]
  · intro ch rest ht hpr he
    simp [keyPressEvent, keyReleaseEvent, printableChar, ht, hpr, he, hm, hi, hv, callView,
      bind, Except.bind, pure, Except.pure]
  · rintro (ht | ⟨ch, rest, ht, hpr⟩)
    · simp [keyPressEvent, keyReleaseEvent, printableChar, ht, hm, hi, hv, callView,
        bind, Except.bind, pure, Except.pure]
    · simp [keyPressEvent, keyReleaseEvent, printableChar, ht, hpr, hm, hi, hv, callView,
        bind, Except.bind, pure, Except.pure]

/-- Witness of C9: on the sample initialized adapter the key a with the
toggle unset is delivered as `SendKeyPress(65, 0, 97)` and
`SendKeyRelease(65, 0, 97)`, with the toggle set as nothing at the press and
`SendTextEvent("a", "")` at the release; the Return key, whose text "\r" is
not printable, is delivered with the toggle set as
`SendKeyPress(16777220, 0, 0)` and `SendKeyRelease(16777220, 0, 0)`. -/
theorem key_delivery_modes_witness :
    sampleExternals.Q_WS_MAEMO_5 = false ∧
    sampleInitialized.d.mViewInitialized = true ∧
    sampleInitialized.d.mView = some ⟨1⟩ ∧
    (keyPressEvent sampleExternals false sampleKeyA sampleInitialized =
        .ok (emit (.view ⟨1⟩ (.SendKeyPress 65 0 97)) sampleInitialized) ∧
      keyReleaseEvent sampleExternals false sampleKeyA sampleInitialized =
        .ok (emit (.view ⟨1⟩ (.SendKeyRelease 65 0 97)) sampleInitialized)) ∧
    (keyPressEvent sampleExternals true sampleKeyA sampleInitialized = .ok sampleInitialized ∧
      keyReleaseEvent sampleExternals true sampleKeyA sampleInitialized =
        .ok (emit (.view ⟨1⟩ (.SendTextEvent [97] [])) sampleInitialized)) ∧
    (keyPressEvent sampleExternals true sampleKeyReturn sampleInitialized =
        .ok (emit (.view ⟨1⟩ (.SendKeyPress 16777220 0 0)) sampleInitialized) ∧
      keyReleaseEvent sampleExternals true sampleKeyReturn sampleInitialized =
        .ok (emit (.view ⟨1⟩ (.SendKeyRelease 16777220 0 0)) sampleInitialized)) :=
  ⟨rfl, rfl, rfl,
    (key_delivery_modes sampleExternals false sampleKeyA sampleInitialized ⟨1⟩ rfl rfl
      rfl).2.1 ⟨97⟩ [] rfl rfl rfl,
    (key_delivery_modes sampleExternals true sampleKeyA sampleInitialized ⟨1⟩ rfl rfl
      rfl).1 ⟨97⟩ [] rfl rfl rfl,
    (key_delivery_modes sampleExternals true sampleKeyReturn sampleInitialized ⟨1⟩ rfl rfl
      rfl).2.2 (Or.inr ⟨⟨13⟩, [], rfl, rfl⟩)⟩

/-- C7, as stated, fails when the toggle is switched on between the press and
the release of a printable key: on the sample initialized adapter the key a,
pressed with `USE_TEXT_EVENTS` unset and released with it set, reaches the
engine as a `SendKeyPress` followed by a `SendTextEvent`. -/
theorem toggle_set_between_press_and_release_delivers_both :
    (keystroke sampleExternals false true sampleKeyA sampleInitialized).map (·.trace) =
      .ok (sampleInitialized.trace ++
        [.view ⟨1⟩ (.SendKeyPress 65 0 97), .view ⟨1⟩ (.SendTextEvent [97] [])]) ∧
    deliversBoth [.view ⟨1⟩ (.SendKeyPress 65 0 97), .view ⟨1⟩ (.SendTextEvent [97] [])] =
      true :=
  ⟨rfl, rfl⟩

theorem printableChar_isSome_iff (ext : Externals) (text : QString) :
    (printableChar ext text).isSome = true ↔
      ∃ ch rest, text = ch :: rest ∧ ext.isPrint ch = true := by
  cases text with
  | nil => simp [printableChar]
  | cons c rest =>
    cases hc : ext.isPrint c <;> simp [printableChar, hc]

/-- C7, amended: for every keystroke on an initialized view (handle present)
and for every value the toggle takes at the press and at the release, the
calls the keystroke adds to the trace hold both a discrete key signal
(`SendKeyPress` or `SendKeyRelease`) and a composed-text signal
(`SendTextEvent`) in exactly one case: the build is the default, non-Maemo
one, the text of the key event begins with a printable character, and the
toggle is unset at the press and set at the release.  In every other case,
among them every key without printable text, the Maemo build, and a toggle
that keeps its value or is switched off between press and release, the
engine never receives both. -/
theorem keystroke_delivers_both_iff (ext : Externals) (atPress atRelease : Bool)
    (event : QKeyEvent) (s : QGraphicsMozView) (v : EmbedLiteView)
    (hi : s.d.mViewInitialized = true) (hv : s.d.mView = some v) :
    ∃ new, (keystroke ext atPress atRelease event s).map (·.trace) = .ok (s.trace ++ new) ∧
      (deliversBoth new = true ↔
        (ext.Q_WS_MAEMO_5 = false ∧
          (∃ ch rest, event.text = ch :: rest ∧ ext.isPrint ch = true) ∧
          atPress = false ∧ atRelease = true)) := by
  have hp := keyPressEvent_initialized ext atPress event s v hi hv
  have hr0 := keyReleaseEvent_initialized ext atRelease event s v hi hv
  have hr1 : ∀ c, keyReleaseEvent ext atRelease event (emit c s) = _ :=
    fun c => keyReleaseEvent_initialized ext atRelease event (emit c s) v hi hv
  refine ⟨(if ((printableChar ext event.text).isSome && atPress) || ext.Q_WS_MAEMO_5 then []
      else [Call.view v (.SendKeyPress (ext.QtKeyCodeToDOMKeyCode event.key event.modifiers)
        (ext.QtModifierToDOMModifier event.modifiers) (charCodeOf ext event.text))]) ++
    (if (printableChar ext event.text).isSome && atRelease then
      [Call.view v (.SendTextEvent (ext.toUtf8 event.text) [])]
    else if ext.Q_WS_MAEMO_5 then
      [Call.view v (.SendKeyPress (ext.QtKeyCodeToDOMKeyCode event.key event.modifiers)
        (ext.QtModifierToDOMModifier event.modifiers) (charCodeOf ext event.text)),
       Call.view v (.SendKeyRelease (ext.QtKeyCodeToDOMKeyCode event.key event.modifiers)
        (ext.QtModifierToDOMModifier event.modifiers) (charCodeOf ext event.text))]
    else
      [Call.view v (.SendKeyRelease (ext.QtKeyCodeToDOMKeyCode event.key event.modifiers)
        (ext.QtModifierToDOMModifier event.modifiers) (charCodeOf ext event.text))]), ?_, ?_⟩
  · simp only [keystroke, bind]
    rw [hp]
    generalize (printableChar ext event.text).isSome = p at hr0 hr1 ⊢
    generalize ext.Q_WS_MAEMO_5 = m at hr0 hr1 ⊢
    cases p <;> cases atPress <;> cases atRelease <;> cases m <;>
      (simp [Except.bind, Except.map, hr0, hr1]; simp [emit])
  · rw [← printableChar_isSome_iff]
    generalize (printableChar ext event.text).isSome = p
    generalize ext.Q_WS_MAEMO_5 = m
    cases p <;> cases atPress <;> cases atRelease <;> cases m <;>
      simp [deliversBoth, Call.isKeySignal, Call.isTextSignal]

/-- Witness of C7 (amended): on the sample initialized adapter, the key a
with the toggle set at both the press and the release, and the Return key
with the toggle unset at the press and set at the release. -/
theorem keystroke_delivers_both_iff_witness :
    sampleInitialized.d.mViewInitialized = true ∧
    sampleInitialized.d.mView = some ⟨1⟩ ∧
    (∃ new, (keystroke sampleExternals true true sampleKeyA sampleInitialized).map (·.trace) =
        .ok (sampleInitialized.trace ++ new) ∧
      (deliversBoth new = true ↔
        (sampleExternals.Q_WS_MAEMO_5 = false ∧
          (∃ ch rest, sampleKeyA.text = ch :: rest ∧ sampleExternals.isPrint ch = true) ∧
          true = false ∧ true = true))) ∧
    (∃ new, (keystroke sampleExternals false true sampleKeyReturn sampleInitialized).map
          (·.trace) = .ok (sampleInitialized.trace ++ new) ∧
      (deliversBoth new = true ↔
        (sampleExternals.Q_WS_MAEMO_5 = false ∧
          (∃ ch rest, sampleKeyReturn.text = ch :: rest ∧
            sampleExternals.isPrint ch = true) ∧
          false = false ∧ true = true))) :=
  ⟨rfl, rfl,
    keystroke_delivers_both_iff sampleExternals true true sampleKeyA sampleInitialized ⟨1⟩
      rfl rfl,
    keystroke_delivers_both_iff sampleExternals false true sampleKeyReturn sampleInitialized
      ⟨1⟩ rfl rfl⟩

/-! ## C8: a press followed by a release -/

theorem pressThenRelease_forwards (ext : Externals) (tRestart tPress tRelease : Nat)
    (ePress eRelease : QGraphicsSceneMouseEvent) (s : QGraphicsMozView) (v : EmbedLiteView)
    (hi : s.d.mViewInitialized = true) (hv : s.d.mView = some v)
    (hp : s.d.mPendingTouchEvent = false) :
    ∃ s', pressThenRelease ext tRestart tPress tRelease ePress eRelease s = .ok s' ∧
      touchEvents s'.trace = touchEvents s.trace ++
        [expectedTouch .MULTITOUCH_START ((QTime.mk tRestart).elapsed tPress)
          (nsIntPoint.ofQPointF ePress.pos),
         expectedTouch .MULTITOUCH_END ((QTime.mk tRestart).elapsed tRelease)
          (nsIntPoint.ofQPointF eRelease.pos)] := by
  obtain ⟨r, hr, hd, ht⟩ := mousePressEvent_forwards ext tRestart tPress ePress s v hi hv hp
  obtain ⟨r', hr', _, ht'⟩ := mouseReleaseEvent_forwards ext tRelease eRelease r.1 v
    (by rw [hd]; exact hi) (by rw [hd]; exact hv) (by rw [hd]; exact hp)
  refine ⟨r'.1, by simp only [pressThenRelease, bind, Except.bind, hr, hr', pure, Except.pure],
    ?_⟩
  rw [ht', ht, hd]
  simp

/-- C8, as stated, fails when the release is read in the same millisecond as
the press, and for a fractional position: on the sample initialized adapter,
a press and a release at (21/2, 20), the clock reading 1000 at the restart, at
the press and at the release, reach the engine as START and END events that
both carry the timestamp 0, which is not strictly increasing, and the integer
point (10, 20), which is not the position of the mouse events. -/
theorem press_release_same_millisecond_not_increasing :
    (pressThenRelease sampleExternals 1000 1000 1000 ⟨⟨21 / 2, 20⟩, true⟩
        ⟨⟨21 / 2, 20⟩, true⟩ sampleInitialized).map (fun s' => touchEvents s'.trace) =
      .ok [expectedTouch .MULTITOUCH_START 0 ⟨10, 20⟩,
           expectedTouch .MULTITOUCH_END 0 ⟨10, 20⟩] ∧
    ¬ ((expectedTouch .MULTITOUCH_START 0 ⟨10, 20⟩).mTime <
        (expectedTouch .MULTITOUCH_END 0 ⟨10, 20⟩).mTime) ∧
    (((10 : Int) : ℚ), ((20 : Int) : ℚ)) ≠ ((21 / 2 : ℚ), (20 : ℚ)) := by
  refine ⟨?_, by decide, by norm_num⟩
  obtain ⟨s', hs, ht⟩ := pressThenRelease_forwards sampleExternals 1000 1000 1000
    ⟨⟨21 / 2, 20⟩, true⟩ ⟨⟨21 / 2, 20⟩, true⟩ sampleInitialized ⟨1⟩ rfl rfl rfl
  rw [hs]
  simp only [Except.map, ht, nsIntPoint.ofQPointF, qrealToInt_21_half,
    qrealToInt_intCast 20 (by decide)]
  rfl

theorem millisecondsBetween_ordered (a b c : Nat) (h : ReadInOrder a b c) :
    millisecondsBetween a b ≤ millisecondsBetween a c ∧
      (millisecondsBetween a b < millisecondsBetween a c ↔ b ≠ c) := by
  obtain ⟨ha, hb, hc, hcases⟩ := h
  unfold millisecondsBetween
  rcases hcases with ⟨h1, h2⟩ | ⟨h1, h2⟩ | ⟨h1, h2⟩
  · rw [if_neg (by omega), if_neg (by omega)]
    omega
  · rw [if_pos (by omega), if_pos (by omega)]
    omega
  · rw [if_neg (by omega), if_pos (by omega)]
    omega

/-- C8, amended: for every position (x, y) and all clock readings, a mouse
press at (x, y) followed by a mouse release at (x, y) on an initialized view
(handle present, no native touch session pending) makes the engine receive
exactly two multi-touch events, START then END, both at (x, y) converted to
`int` coordinates (each coordinate rounded toward zero, or -2147483648 when the
rounded value does not fit a 32-bit `int`), with as timestamps the
milliseconds from the restart of the gesture clock at the press to the reading
of the press and to the reading of the release, a day being added when
midnight was passed.  When the three readings are taken in order within one
day, the timestamp of END is greater than or equal to that of START, and
strictly greater exactly when the release is not read at the same millisecond
as the press. -/
theorem press_then_release_forwards_start_then_end (ext : Externals)
    (tRestart tPress tRelease : Nat) (pos : QPointF) (accepted accepted' : Bool)
    (s : QGraphicsMozView) (v : EmbedLiteView) (hi : s.d.mViewInitialized = true)
    (hv : s.d.mView = some v) (hp : s.d.mPendingTouchEvent = false) :
    ∃ s', pressThenRelease ext tRestart tPress tRelease ⟨pos, accepted⟩ ⟨pos, accepted'⟩ s =
        .ok s' ∧
      touchEvents s'.trace = touchEvents s.trace ++
        [expectedTouch .MULTITOUCH_START (millisecondsBetween tRestart tPress)
          ⟨truncatedCoordinate pos.x, truncatedCoordinate pos.y⟩,
         expectedTouch .MULTITOUCH_END (millisecondsBetween tRestart tRelease)
          ⟨truncatedCoordinate pos.x, truncatedCoordinate pos.y⟩] ∧
      (ReadInOrder tRestart tPress tRelease →
        millisecondsBetween tRestart tPress ≤ millisecondsBetween tRestart tRelease ∧
        (millisecondsBetween tRestart tPress < millisecondsBetween tRestart tRelease ↔
          tPress ≠ tRelease)) := by
  obtain ⟨s', hs, ht⟩ := pressThenRelease_forwards ext tRestart tPress tRelease
    ⟨pos, accepted⟩ ⟨pos, accepted'⟩ s v hi hv hp
  refine ⟨s', hs, ?_, millisecondsBetween_ordered tRestart tPress tRelease⟩
  rw [ht, ofQPointF_eq_truncated, elapsed_eq_millisecondsBetween,
    elapsed_eq_millisecondsBetween]

/-- Witness of C8 (amended): press at (10, 20), release at (10, 20), the
clock reading 23:59:59.990 at the restart and at the press and 00:00:00.005 at
the release; the timestamps are 0 and 15. -/
theorem press_then_release_forwards_start_then_end_witness :
    sampleInitialized.d.mViewInitialized = true ∧
    sampleInitialized.d.mView = some ⟨1⟩ ∧
    sampleInitialized.d.mPendingTouchEvent = false ∧
    ReadInOrder 86399990 86399990 5 ∧
    (∃ s', pressThenRelease sampleExternals 86399990 86399990 5 ⟨⟨10, 20⟩, false⟩
          ⟨⟨10, 20⟩, false⟩ sampleInitialized = .ok s' ∧
      touchEvents s'.trace = touchEvents sampleInitialized.trace ++
        [expectedTouch .MULTITOUCH_START (millisecondsBetween 86399990 86399990)
          ⟨truncatedCoordinate 10, truncatedCoordinate 20⟩,
         expectedTouch .MULTITOUCH_END (millisecondsBetween 86399990 5)
          ⟨truncatedCoordinate 10, truncatedCoordinate 20⟩] ∧
      (ReadInOrder 86399990 86399990 5 →
        millisecondsBetween 86399990 86399990 ≤ millisecondsBetween 86399990 5 ∧
        (millisecondsBetween 86399990 86399990 < millisecondsBetween 86399990 5 ↔
          86399990 ≠ 5))) ∧
    millisecondsBetween 86399990 86399990 = 0 ∧ millisecondsBetween 86399990 5 = 15 ∧
    truncatedCoordinate 10 = 10 ∧ truncatedCoordinate 20 = 20 :=
  ⟨rfl, rfl, rfl,
    ⟨by decide, by decide, by decide, Or.inr (Or.inr ⟨by decide, by decide⟩)⟩,
    press_then_release_forwards_start_then_end sampleExternals 86399990 86399990 5 ⟨10, 20⟩
      false false sampleInitialized ⟨1⟩ rfl rfl rfl,
    by decide, by decide, by simp [truncatedCoordinate], by simp [truncatedCoordinate]⟩

/-! ## C10: focus is granted to the focus-scope ancestors and the widget -/

/-- C10: for every chain of ancestors, `forceActiveFocus` returns and calls
`setFocus` with `OtherFocusReason` on exactly the ancestors flagged as focus
scopes, once each, from the nearest ancestor to the root, and then on the
widget itself, and on nothing else; so the number of focus grants is the
number of focus-scope ancestors plus one. -/
theorem forceActiveFocus_grants_scopes_then_self (s : QGraphicsMozView)
    (hw : HandlePresentWhenInitialized s) :
    ∃ s', forceActiveFocus s = .ok s' ∧
      focusGrants s'.trace = focusGrants s.trace ++
        (s.ancestors.filter (·.ItemIsFocusScope)).map
          (fun p => (p.id, FocusReason.OtherFocusReason)) ++
        [(s.id, FocusReason.OtherFocusReason)] ∧
      (focusGrants s'.trace).length =
        (focusGrants s.trace).length + s.ancestors.countP (·.ItemIsFocusScope) + 1 := by
  obtain ⟨s', hf, _, _, hg⟩ := forceActiveFocus_returns s hw
  refine ⟨s', hf, hg, ?_⟩
  rw [hg]
  simp only [List.length_append, List.length_map, List.length_singleton,
    List.countP_eq_length_filter]

/-- Witness of C10: a widget under a focus scope, a plain item and another
focus scope receives three focus grants: items 1, 3 and then itself. -/
theorem forceActiveFocus_grants_scopes_then_self_witness :
    HandlePresentWhenInitialized (QGraphicsMozView.new 0 [⟨1, true⟩, ⟨2, false⟩, ⟨3, true⟩]) ∧
    ∃ s', forceActiveFocus (QGraphicsMozView.new 0 [⟨1, true⟩, ⟨2, false⟩, ⟨3, true⟩]) =
        .ok s' ∧
      focusGrants s'.trace =
        focusGrants (QGraphicsMozView.new 0 [⟨1, true⟩, ⟨2, false⟩, ⟨3, true⟩]).trace ++
        (([⟨1, true⟩, ⟨2, false⟩, ⟨3, true⟩] : List QGraphicsItem).filter
            (·.ItemIsFocusScope)).map (fun p => (p.id, FocusReason.OtherFocusReason)) ++
        [(0, FocusReason.OtherFocusReason)] ∧
      (focusGrants s'.trace).length =
        (focusGrants (QGraphicsMozView.new 0 [⟨1, true⟩, ⟨2, false⟩, ⟨3, true⟩]).trace).length +
          ([⟨1, true⟩, ⟨2, false⟩, ⟨3, true⟩] : List QGraphicsItem).countP
            (·.ItemIsFocusScope) + 1 :=
  ⟨by decide,
    forceActiveFocus_grants_scopes_then_self
      (QGraphicsMozView.new 0 [⟨1, true⟩, ⟨2, false⟩, ⟨3, true⟩]) (by decide)⟩

/-! ## C11: what focus acquisition tells the engine -/

theorem engineCalls_passToItem (ext : Externals)
    (r : QGraphicsMozView × QGraphicsSceneMouseEvent) :
    engineCalls (passToItem ext r).1.trace = engineCalls r.1.trace := by
  unfold passToItem
  split
  · simp [emit, engineCalls_append, engineCalls_cons_host, engineCalls_nil]
  · rfl

theorem engineCalls_emit_view (v : EmbedLiteView) (c : ViewCall) (s : QGraphicsMozView) :
    engineCalls (emit (.view v c) s).trace = engineCalls s.trace ++ [Call.view v c] := by
  simp [emit, engineCalls_append]
  rfl

theorem forceActiveFocus_engine (s : QGraphicsMozView) (v : EmbedLiteView)
    (hv : s.d.mView = some v) :
    ∃ s', forceActiveFocus s = .ok s' ∧ s'.d = s.d ∧
      engineCalls s'.trace = engineCalls s.trace ++
        (if s.d.mViewInitialized then [Call.view v (.SetIsActive true)] else []) := by
  cases hi : s.d.mViewInitialized with
  | false =>
    refine ⟨_, forceActiveFocus_uninitialized s hi, rfl, ?_⟩
    simp [engineCalls_append, engineCalls_setFocus_map, engineCalls_cons_host, engineCalls_nil]
  | true =>
    have h : forceActiveFocus s = .ok (emit (.view v (.SetIsActive true))
        { s with trace := (s.trace ++
          (s.ancestors.filter (·.ItemIsFocusScope)).map
            (fun p => Call.host (.setFocus p.id .OtherFocusReason)) ++
          [Call.host (.setFocus s.id .OtherFocusReason)]) }) := by
      simp [forceActiveFocus, loop_eq, emit, hi, hv, callView]
    refine ⟨_, h, rfl, ?_⟩
    rw [engineCalls_emit_view]
    simp [engineCalls_append, engineCalls_setFocus_map, engineCalls_cons_host, engineCalls_nil]

theorem mousePressEvent_engine (ext : Externals) (tRestart now : Nat)
    (e : QGraphicsSceneMouseEvent) (s : QGraphicsMozView) (v : EmbedLiteView)
    (hv : s.d.mView = some v) :
    ∃ r, mousePressEvent ext tRestart now e s = .ok r ∧
      engineCalls r.1.trace = engineCalls s.trace ++
        (if s.d.mViewInitialized then [Call.view v (.SetIsActive true)] else []) ++
        (if s.d.mViewInitialized && !s.d.mPendingTouchEvent then
          [Call.view v (.ReceiveInputEvent (expectedTouch .MULTITOUCH_START
            ((QTime.mk tRestart).elapsed now) (nsIntPoint.ofQPointF e.pos)))]
        else []) := by
  obtain ⟨s2, hf, hd, ht⟩ := forceActiveFocus_engine
    { s with d := { s.d with mPanningTime := s.d.mPanningTime.restart tRestart } } v hv
  cases hg : (s.d.mViewInitialized && !s.d.mPendingTouchEvent) with
  | true =>
    have hi : s.d.mViewInitialized = true := by
      cases h : s.d.mViewInitialized <;> simp [h] at hg ⊢
    have hp : s.d.mPendingTouchEvent = false := by
      cases h : s.d.mPendingTouchEvent <;> simp [h] at hg ⊢
    have hst := singleTouch_forwards .MULTITOUCH_START now e s2 v (by rw [hd]; exact hi)
      (by rw [hd]; exact hv) (by rw [hd]; exact hp)
    have h : mousePressEvent ext tRestart now e s = .ok (passToItem ext
        (emit (.view v (.ReceiveInputEvent (expectedTouch .MULTITOUCH_START
          (s2.d.mPanningTime.elapsed now) (nsIntPoint.ofQPointF e.pos)))) s2, e)) := by
      simp only [mousePressEvent, bind, Except.bind, hf, hst, pure, Except.pure]
    refine ⟨_, h, ?_⟩
    rw [engineCalls_passToItem, engineCalls_emit_view, ht, hd]
    simp [hi, QTime.restart]
  | false =>
    have hst := singleTouch_suppressed .MULTITOUCH_START now e s2 (by
      rw [hd]
      cases h : s.d.mViewInitialized <;> cases h' : s.d.mPendingTouchEvent <;>
        simp [h, h'] at hg ⊢)
    have h : mousePressEvent ext tRestart now e s = .ok (passToItem ext (s2, e)) := by
      simp only [mousePressEvent, bind, Except.bind, hf, hst, pure, Except.pure]
    refine ⟨_, h, ?_⟩
    rw [engineCalls_passToItem, ht]
    simp

/-- C11, as stated, fails in two ways.  On the sample adapter whose view is
created but not yet initialized, which has a view handle, `forceActiveFocus`
issues no engine call at all; and on the sample initialized adapter it issues
`SetIsActive(true)` and nothing else, so no `ResumeTimeouts`. -/
theorem forceActiveFocus_issues_no_ResumeTimeouts :
    sampleCreated.d.mView = some ⟨1⟩ ∧
    (forceActiveFocus sampleCreated).map (fun s => engineCalls s.trace) =
      .ok (engineCalls sampleCreated.trace) ∧
    sampleInitialized.d.mView = some ⟨1⟩ ∧
    (forceActiveFocus sampleInitialized).map (fun s => engineCalls s.trace) =
      .ok (engineCalls sampleInitialized.trace ++ [.view ⟨1⟩ (.SetIsActive true)]) ∧
    Call.view ⟨1⟩ .ResumeTimeouts ∉ [Call.view ⟨1⟩ (.SetIsActive true)] :=
  ⟨rfl, rfl, rfl, rfl, by decide⟩

/-- C11, amended: in every adapter state that has a view handle,
`forceActiveFocus` returns having issued on the engine view exactly one
`SetIsActive(true)` when the view is initialized and no call when it is not,
and never a `ResumeTimeouts`; `mousePressEvent` issues the same, followed only
by the START touch event when the view is initialized and no touch session is
pending.  Timers are resumed by `onDisplayEntered`, which in every state that
has a view handle issues `SetIsActive(true)` and then `ResumeTimeouts`. -/
theorem focus_acquisition_marks_initialized_view_active (ext : Externals)
    (tRestart now : Nat) (e : QGraphicsSceneMouseEvent) (s : QGraphicsMozView)
    (v : EmbedLiteView) (hv : s.d.mView = some v) :
    (∃ s', forceActiveFocus s = .ok s' ∧
      engineCalls s'.trace = engineCalls s.trace ++
        (if s.d.mViewInitialized then [Call.view v (.SetIsActive true)] else [])) ∧
    (∃ r, mousePressEvent ext tRestart now e s = .ok r ∧
      engineCalls r.1.trace = engineCalls s.trace ++
        (if s.d.mViewInitialized then [Call.view v (.SetIsActive true)] else []) ++
        (if s.d.mViewInitialized && !s.d.mPendingTouchEvent then
          [Call.view v (.ReceiveInputEvent (expectedTouch .MULTITOUCH_START
            ((QTime.mk tRestart).elapsed now) (nsIntPoint.ofQPointF e.pos)))]
        else [])) ∧
    onDisplayEntered s =
      .ok (emit (.view v .ResumeTimeouts) (emit (.view v (.SetIsActive true)) s)) := by
  refine ⟨?_, mousePressEvent_engine ext tRestart now e s v hv, ?_⟩
  · obtain ⟨s', hf, _, ht⟩ := forceActiveFocus_engine s v hv
    exact ⟨s', hf, ht⟩
  · simp [onDisplayEntered, hv, callView, emit, bind, Except.bind]

/-- Witness of C11 (amended): `forceActiveFocus` and `onDisplayEntered` on
the sample initialized adapter. -/
theorem focus_acquisition_marks_initialized_view_active_witness :
    sampleInitialized.d.mView = some ⟨1⟩ ∧
    (∃ s', forceActiveFocus sampleInitialized = .ok s' ∧
      engineCalls s'.trace = engineCalls sampleInitialized.trace ++
        (if sampleInitialized.d.mViewInitialized then [Call.view ⟨1⟩ (.SetIsActive true)]
         else [])) ∧
    onDisplayEntered sampleInitialized =
      .ok (emit (.view ⟨1⟩ .ResumeTimeouts)
        (emit (.view ⟨1⟩ (.SetIsActive true)) sampleInitialized)) :=
  have h := focus_acquisition_marks_initialized_view_active sampleExternals 1000 1000
    ⟨⟨10, 20⟩, true⟩ sampleInitialized ⟨1⟩ rfl
  ⟨rfl, h.1, h.2.2⟩

/-! ## C12: teardown -/

/-- C12, as stated, fails for an adapter whose view was never created: the
destructor of a newly constructed adapter still asks the engine to destroy a
view, passing the null handle, before it releases the private object. -/
theorem destructor_requests_destroy_of_null_handle :
    (QGraphicsMozView.new 0 []).d.mView = none ∧
    (QGraphicsMozView.new 0 []).destructor =
      [.call (.app (.DestroyView none)), .delete_d] ∧
    ((QGraphicsMozView.new 0 []).destructor.filter TeardownStep.isDestroyView).length = 1 :=
  ⟨rfl, rfl, rfl⟩

/-- C12, amended: in every adapter state the destructor calls `DestroyView`
exactly once, as its first step and with the handle as it is (null when no
view was ever created), and releases the private object as its last step;
when a handle is present it calls `SetListener(NULL)` on it in between, in
that order and nothing else; when the handle is null it invokes no method on
a view handle. -/
theorem destructor_destroys_then_clears_listener (s : QGraphicsMozView) :
    (s.destructor.filter TeardownStep.isDestroyView).length = 1 ∧
    s.destructor.head? = some (.call (.app (.DestroyView s.d.mView))) ∧
    s.destructor.getLast? = some .delete_d ∧
    (∀ v, s.d.mView = some v →
      s.destructor = [.call (.app (.DestroyView (some v))),
        .call (.view v (.SetListener .NULL)), .delete_d]) ∧
    (s.d.mView = none →
      s.destructor = [.call (.app (.DestroyView none)), .delete_d] ∧
      s.destructor.filter TeardownStep.isViewCall = []) := by
  cases hv : s.d.mView with
  | none =>
    have h : s.destructor = [.call (.app (.DestroyView none)), .delete_d] := by
      simp [QGraphicsMozView.destructor, hv]
    refine ⟨(by rw [h]; rfl), (by rw [h]; rfl), (by rw [h]; rfl),
      (fun v hv' => by cases hv'), fun _ => ?_⟩
    exact ⟨h, (by rw [h]; rfl)⟩
  | some v =>
    have h : s.destructor = [.call (.app (.DestroyView (some v))),
        .call (.view v (.SetListener .NULL)), .delete_d] := by
      simp [QGraphicsMozView.destructor, hv]
    refine ⟨(by rw [h]; rfl), (by rw [h]; rfl), (by rw [h]; rfl), fun v' hv' => ?_,
      (fun hn => by cases hn)⟩
    cases hv'
    exact h

/-- Witness of C12 (amended): the destructor of the sample initialized
adapter, which has the handle 1, and of a newly constructed adapter. -/
theorem destructor_destroys_then_clears_listener_witness :
    sampleInitialized.d.mView = some ⟨1⟩ ∧
    sampleInitialized.destructor = [.call (.app (.DestroyView (some ⟨1⟩))),
      .call (.view ⟨1⟩ (.SetListener .NULL)), .delete_d] ∧
    (QGraphicsMozView.new 0 []).d.mView = none ∧
    (QGraphicsMozView.new 0 []).destructor =
      [.call (.app (.DestroyView none)), .delete_d] ∧
    (QGraphicsMozView.new 0 []).destructor.filter TeardownStep.isViewCall = [] :=
  ⟨rfl,
    (destructor_destroys_then_clears_listener sampleInitialized).2.2.2.1 ⟨1⟩ rfl,
    rfl,
    ((destructor_destroys_then_clears_listener (QGraphicsMozView.new 0 [])).2.2.2.2 rfl).1,
    ((destructor_destroys_then_clears_listener (QGraphicsMozView.new 0 [])).2.2.2.2 rfl).2⟩

end QtMozEmbed
